import Mathlib

/-!
# Signed data containers (`datapayloads.go`)

A shallow embedding of `signed_data_container.go` and `signer.go`.

* Go byte slices are lists of bytes (`nil` and the empty slice are identified,
  capacity equals length).
* A Go `error` is a `GoError`: a sentinel, a fresh error, or an `fmt.Errorf`
  wrapping with `%w`; `GoError.Is` is `errors.Is`.
* A Go call either returns or aborts with a run-time panic: `Go α`.
* The serializer of `hive.go`, the signature types of `iota.go` and the
  cryptographic primitives are libraries outside `src/`; the first two are
  modelled below, the primitives are parameters (`Primitives`).
-/

namespace Datapayloads

/-! ## Bytes -/

/-- One byte. -/
abbrev Byte := Fin 256

/-- Go fixed-size array `[n]byte`. -/
abbrev ByteArrayN (n : Nat) := { l : List Byte // l.length = n }

/-- The zero value of `[n]byte`. -/
def ByteArrayN.zero (n : Nat) : ByteArrayN n := ⟨List.replicate n 0, by simp⟩

/-- Go `copy(dst[:], src)` into a fixed-size array: the first `min n (len src)`
bytes of `dst` are overwritten, the others are kept. -/
def copyInto {n : Nat} (dst : ByteArrayN n) (src : List Byte) : ByteArrayN n :=
  ⟨src.take n ++ dst.val.drop (min n src.length), by
    have h := dst.property
    simp only [List.length_append, List.length_take, List.length_drop, h]
    omega⟩

/-- The low byte of a natural number. -/
def byteOfNat (v : Nat) : Byte := ⟨v % 256, Nat.mod_lt _ (by decide)⟩

/-- Little-endian encoding of `uint16(v)` (`binary.LittleEndian.PutUint16`). -/
def putUint16LE (v : Nat) : List Byte :=
  [byteOfNat (v % 65536), byteOfNat (v % 65536 / 256)]

/-- Little-endian encoding of `uint32(v)`. -/
def putUint32LE (v : Nat) : List Byte :=
  [byteOfNat (v % 4294967296), byteOfNat (v % 4294967296 / 256),
   byteOfNat (v % 4294967296 / 65536), byteOfNat (v % 4294967296 / 16777216)]

/-- Little-endian decoding of the bytes of a slice (`binary.LittleEndian.UintN`). -/
def uintLE : List Byte → Nat
  | [] => 0
  | b :: bs => b.val + 256 * uintLE bs

/-! ## Errors and panics -/

/-- The sentinel errors (`errors.New` package variables) that the code refers to. -/
inductive Sentinel where
  /-- `ErrNotASignedDataContainer` of this package. -/
  | ErrNotASignedDataContainer
  /-- `ErrInvalidSignature` of this package. -/
  | ErrInvalidSignature
  /-- `ErrUnknownPrivateKeyType` of this package (signer.go). -/
  | ErrUnknownPrivateKeyType
  /-- `iotago.ErrUnknownSignatureType`. -/
  | ErrUnknownSignatureType
  /-- `iotago.ErrUnknownUnlockType`, which `jsonSignatureSelector` wraps. -/
  | ErrUnknownUnlockType
  /-- `iotago.ErrTypeIsNotSupportedSignature`, the failure of the allow-lists. -/
  | ErrTypeIsNotSupportedSignature
  /-- `serializer.ErrDeserializationNotEnoughData`. -/
  | ErrDeserializationNotEnoughData
  /-- `serializer.ErrDeserializationTypeMismatch`. -/
  | ErrDeserializationTypeMismatch
  /-- `serializer.ErrDeserializationNotAllConsumed`, the trailing-bytes failure. -/
  | ErrDeserializationNotAllConsumed
  /-- `serializer.ErrDeserializationLengthInvalid`. -/
  | ErrDeserializationLengthInvalid
  /-- `serializer.ErrSliceLengthTooShort`. -/
  | ErrSliceLengthTooShort
  /-- `serializer.ErrSliceLengthTooLong`. -/
  | ErrSliceLengthTooLong
  deriving DecidableEq, Repr

/-- A Go error value. `errorf format inner` is `fmt.Errorf(format, …)` whose `%w`
verb wraps `inner`; the other arguments of the format are not recorded. -/
inductive GoError where
  | sentinel (s : Sentinel)
  | new (msg : String)
  | errorf (format : String) (inner : GoError)
  deriving DecidableEq, Repr

/-- Go `errors.Is(err, target)` for a sentinel target: walks the `%w` chain. -/
def GoError.Is : GoError → Sentinel → Bool
  | .sentinel s, t => decide (s = t)
  | .new _, _ => false
  | .errorf _ inner, t => inner.Is t

/-- The outcome of running a Go function: it returns, or it aborts with a
run-time panic. -/
inductive Go (α : Type) where
  | ret (a : α)
  | abort (msg : String)
  deriving DecidableEq, Repr

/-- Sequencing of Go calls: a panic propagates. -/
def Go.bind {α β : Type} (x : Go α) (f : α → Go β) : Go β :=
  match x with
  | .ret a => f a
  | .abort msg => .abort msg

instance : Monad Go where
  pure := Go.ret
  bind := Go.bind

/-- Whether the call returned (did not panic). -/
def Go.returns {α : Type} : Go α → Bool
  | .ret _ => true
  | .abort _ => false

/-- Go slicing `data[n:]`, which panics when `n > len(data)`. -/
def sliceFrom (data : List Byte) (n : Nat) : Go (List Byte) :=
  if n ≤ data.length then .ret (data.drop n)
  else .abort "slice bounds out of range"

/-- Go slicing `data[:n]`, which panics when `n > len(data)`. -/
def sliceTo (data : List Byte) (n : Nat) : Go (List Byte) :=
  if n ≤ data.length then .ret (data.take n)
  else .abort "slice bounds out of range"

/-! ## The `hive.go` serializer -/

/-- The serializer's `DeSerializationMode`, a bit mask held in a byte. -/
abbrev DeSerializationMode := Nat

/-- Mode `DeSeriModeNoValidation`. -/
def DeSeriModeNoValidation : DeSerializationMode := 0
/-- Mode `DeSeriModePerformValidation` (`1 << 0`). -/
def DeSeriModePerformValidation : DeSerializationMode := 1
/-- Mode `DeSeriModePerformLexicalOrdering` (`1 << 1`). -/
def DeSeriModePerformLexicalOrdering : DeSerializationMode := 2

/-- Method `HasMode`: `sm&mode > 0`. -/
def HasMode (sm mode : DeSerializationMode) : Bool := decide (Nat.land sm mode > 0)

/-- The width of a length prefix. -/
inductive SeriLengthPrefixType where
  | AsByte
  | AsUint16
  | AsUint32
  deriving DecidableEq, Repr

/-- How an object denotes its type. -/
inductive TypeDenotationType where
  | Uint32
  | Byte
  | None
  deriving DecidableEq, Repr

/-- An `ErrProducer`: wraps an error with the context of the caller. -/
abbrev ErrProducer := GoError → GoError

/-- Modelled from the spec: the `Serializer` of `hive.go/serializer/v2` (a library,
not under src/): the bytes written so far and the first error met. -/
structure Serializer where
  buf : List Byte
  err : Option GoError
  deriving DecidableEq, Repr

/-- A serializer with an empty buffer. -/
def NewSerializer : Serializer := ⟨[], none⟩

/-- Modelled from the spec: `Serializer.WriteByte` appends one byte unless an
earlier step failed (writing to the buffer does not fail). -/
def Serializer.WriteByte (s : Serializer) (data : Byte) (_errProducer : ErrProducer) :
    Serializer :=
  match s.err with
  | some _ => s
  | none => { s with buf := s.buf ++ [data] }

/-- The error of a length that does not fit its prefix (the spec's
`InvalidPayloadLength`); the library builds it with `fmt.Errorf` without a sentinel. -/
def lengthOutOfRangeError : GoError :=
  .new "unable to serialize collection length: length %d is out of range (0-%d)"

/-- Modelled from the spec: `Serializer.writeSliceLength`. The length must fit
the prefix ("length must fit in a 16-bit length prefix (≤ 65535 bytes); violating
this is a structural encoding failure, not a silent truncation"); it is written
little-endian. -/
def Serializer.writeSliceLength (s : Serializer) (l : Nat) (lenType : SeriLengthPrefixType)
    (errProducer : ErrProducer) : Serializer :=
  match s.err with
  | some _ => s
  | none =>
    match lenType with
    | .AsByte =>
      if l > 255 then
        { s with err := some (errProducer lengthOutOfRangeError) }
      else { s with buf := s.buf ++ [byteOfNat l] }
    | .AsUint16 =>
      if l > 65535 then
        { s with err := some (errProducer lengthOutOfRangeError) }
      else { s with buf := s.buf ++ putUint16LE l }
    | .AsUint32 =>
      if l > 4294967295 then
        { s with err := some (errProducer lengthOutOfRangeError) }
      else { s with buf := s.buf ++ putUint32LE l }

/-- Modelled from the spec: `Serializer.WriteVariableByteSlice` writes the length
prefix and then the bytes; `minLen`/`maxLen` of zero mean no bound. -/
def Serializer.WriteVariableByteSlice (s : Serializer) (data : List Byte)
    (lenType : SeriLengthPrefixType) (errProducer : ErrProducer) (minLen maxLen : Nat) :
    Serializer :=
  match s.err with
  | some _ => s
  | none =>
    if maxLen > 0 ∧ data.length > maxLen then
      { s with err := some (errProducer (.errorf
        "%w: slice (len %d) exceeds max length of %d " (.sentinel .ErrSliceLengthTooLong))) }
    else if minLen > 0 ∧ data.length < minLen then
      { s with err := some (errProducer (.errorf
        "%w: slice (len %d) is less than min length of %d "
        (.sentinel .ErrSliceLengthTooShort))) }
    else
      let s1 := s.writeSliceLength data.length lenType errProducer
      match s1.err with
      | some _ => s1
      | none => { s1 with buf := s1.buf ++ data }

/-- Method `Serializer.Serialize`: `(nil, err)` after a failed step, else the bytes. -/
def Serializer.Serialize (s : Serializer) : List Byte × Option GoError :=
  match s.err with
  | some e => ([], some e)
  | none => (s.buf, none)

/-- Modelled from the spec: the `Deserializer` of `hive.go/serializer/v2`: the
source, the read offset and the first error met. -/
structure Deserializer where
  src : List Byte
  offset : Nat
  err : Option GoError
  deriving DecidableEq, Repr

/-- A deserializer at the start of `src`. -/
def NewDeserializer (src : List Byte) : Deserializer := ⟨src, 0, none⟩

/-- Library function `serializer.CheckTypeByte`. -/
def CheckTypeByte (data : List Byte) (shouldType : Byte) : Option GoError :=
  match data with
  | [] => some (.errorf "%w: can't check type byte" (.sentinel .ErrDeserializationNotEnoughData))
  | b :: _ =>
    if b ≠ shouldType then
      some (.errorf "%w: type denotation must be %d but is %d"
        (.sentinel .ErrDeserializationTypeMismatch))
    else none

/-- Library function `serializer.CheckType` (a 4-byte little-endian type). -/
def CheckType (data : List Byte) (shouldType : Nat) : Option GoError :=
  if data.length < 4 then
    some (.errorf "%w: can not evaluate type without at least %d bytes"
      (.sentinel .ErrDeserializationNotEnoughData))
  else if uintLE (data.take 4) ≠ shouldType then
    some (.errorf "%w: type denotation must be %d but is %d"
      (.sentinel .ErrDeserializationTypeMismatch))
  else none

/-- Library function `serializer.CheckMinByteLength`. -/
def CheckMinByteLength (min length : Nat) : Option GoError :=
  if length < min then
    some (.errorf "%w: data must be at least %d bytes long but is %d"
      (.sentinel .ErrDeserializationNotEnoughData))
  else none

/-- Method `Deserializer.Skip`. -/
def Deserializer.Skip (d : Deserializer) (skip : Nat) (errProducer : ErrProducer) :
    Deserializer :=
  match d.err with
  | some _ => d
  | none =>
    if d.src.length - d.offset < skip then
      { d with err := some (errProducer (.sentinel .ErrDeserializationNotEnoughData)) }
    else { d with offset := d.offset + skip }

/-- Modelled from the spec: `Deserializer.CheckTypePrefix` compares the type tag
at the offset with the expected one and advances past it. -/
def Deserializer.CheckTypePrefix (d : Deserializer) (pfx : Nat)
    (prefixType : TypeDenotationType) (errProducer : ErrProducer) : Go Deserializer :=
  match d.err with
  | some _ => .ret d
  | none =>
    match prefixType with
    | .Uint32 => do
      let rest ← sliceFrom d.src d.offset
      match CheckType rest pfx with
      | some e => .ret { d with err := some (errProducer e) }
      | none => .ret (d.Skip 4 id)
    | .Byte => do
      let rest ← sliceFrom d.src d.offset
      match CheckTypeByte rest (byteOfNat pfx) with
      | some e => .ret { d with err := some (errProducer e) }
      | none => .ret (d.Skip 1 id)
    | .None => .abort "invalid type prefix in CheckTypePrefix()"

/-- Modelled from the spec: `Deserializer.readSliceLength`: the little-endian
length prefix at the offset; the offset advances past it. -/
def Deserializer.readSliceLength (d : Deserializer) (lenType : SeriLengthPrefixType)
    (errProducer : ErrProducer) : Go (Deserializer × Nat × Option GoError) := do
  let rest ← sliceFrom d.src d.offset
  let width : Nat := match lenType with
    | .AsByte => 1
    | .AsUint16 => 2
    | .AsUint32 => 4
  if rest.length < width then
    .ret (d, 0, some (errProducer (.sentinel .ErrDeserializationNotEnoughData)))
  else
    .ret ({ d with offset := d.offset + width }, uintLE (rest.take width), none)

/-- Modelled from the spec: `Deserializer.ReadVariableByteSlice` reads a
length-prefixed slice into `*slice`; the second component is the value of `*slice`
afterwards. -/
def Deserializer.ReadVariableByteSlice (d : Deserializer) (slice : List Byte)
    (lenType : SeriLengthPrefixType) (errProducer : ErrProducer) (minLen maxLen : Nat) :
    Go (Deserializer × List Byte) :=
  match d.err with
  | some _ => .ret (d, slice)
  | none => do
    let (d1, sliceLength, err) ← d.readSliceLength lenType errProducer
    match err with
    | some e => .ret ({ d1 with err := some e }, slice)
    | none =>
      if maxLen > 0 ∧ sliceLength > maxLen then
        .ret ({ d1 with err := some (errProducer (.errorf
          "%w: denoted %d bytes, max allowed %d " (.sentinel .ErrDeserializationLengthInvalid))) },
          slice)
      else if minLen > 0 ∧ sliceLength < minLen then
        .ret ({ d1 with err := some (errProducer (.errorf
          "%w: denoted %d bytes, min required %d " (.sentinel .ErrDeserializationLengthInvalid))) },
          slice)
      else do
        let rest ← sliceFrom d1.src d1.offset
        if rest.length < sliceLength then
          .ret ({ d1 with err := some (errProducer (.sentinel .ErrDeserializationNotEnoughData)) },
            slice)
        else
          .ret ({ d1 with offset := d1.offset + sliceLength }, rest.take sliceLength)

/-- Modelled from the spec: `Deserializer.ConsumedAll` fails with
`ErrDeserializationNotAllConsumed` when bytes are left over. -/
def Deserializer.ConsumedAll (d : Deserializer) (errProducer : Nat → GoError → GoError) :
    Go Deserializer :=
  match d.err with
  | some _ => .ret d
  | none =>
    if d.src.length ≠ d.offset then do
      let rest ← sliceFrom d.src d.offset
      .ret { d with err := some (errProducer rest.length
        (.sentinel .ErrDeserializationNotAllConsumed)) }
    else .ret d

/-- Method `Deserializer.Done`: the bytes read and the error. -/
def Deserializer.Done (d : Deserializer) : Nat × Option GoError := (d.offset, d.err)

/-! ## Signatures (`iota.go`) -/

/-- A JSON document, as `encoding/json` produces and reads it. The text rendering
itself (white space, escapes) is not modelled. -/
inductive Json where
  | null
  | bool (b : Bool)
  | num (n : Int)
  | str (s : String)
  | arr (items : List Json)
  | obj (fields : List (String × Json))

/-- Signature type tag `iotago.SignatureEd25519`. -/
def SignatureEd25519 : Byte := 0

/-- Struct `iotago.Ed25519Signature`: a 32-byte public key and a 64-byte signature. -/
structure Ed25519Signature where
  PublicKey : ByteArrayN 32
  Signature : ByteArrayN 64
  deriving DecidableEq

/-- The zero value `&Ed25519Signature{}`. -/
def Ed25519Signature.zero : Ed25519Signature := ⟨ByteArrayN.zero 32, ByteArrayN.zero 64⟩

/-- Size of a serialized Ed25519 signature: the type byte, the key, the signature. -/
def Ed25519SignatureSerializedBytesSize : Nat := 1 + 32 + 64

/-- A value of some other Go type that implements the `iotago.Signature` interface,
given by what its methods return: its dynamic type name (`%T`), `Type()`,
`Serialize(...)` and `MarshalJSON()`. -/
structure ForeignSignature where
  TypeName : String
  SigType : Byte
  Serialized : List Byte × Option GoError
  Marshalled : Json × Option GoError

/-- A non-nil value of the interface `iotago.Signature`. -/
inductive Signature where
  | ed25519 (sig : Ed25519Signature)
  | foreign (f : ForeignSignature)

/-- Method `Type()` of a signature (`Type` is reserved in Lean). -/
def Signature.SigType : Signature → Byte
  | .ed25519 _ => SignatureEd25519
  | .foreign f => f.SigType

/-- Modelled from the spec: `Ed25519Signature.Serialize`: "own type-tag byte ‖
fixed-width fields", the public key before the signature. -/
def Ed25519Signature.Serialize (e : Ed25519Signature) (_deSeriMode : DeSerializationMode) :
    List Byte × Option GoError :=
  (SignatureEd25519 :: (e.PublicKey.val ++ e.Signature.val), none)

/-- Method `Serialize` of a signature. -/
def Signature.Serialize (sig : Signature) (deSeriMode : DeSerializationMode) :
    List Byte × Option GoError :=
  match sig with
  | .ed25519 e => e.Serialize deSeriMode
  | .foreign f => f.Serialized

/-- Modelled from the spec: `Ed25519Signature.Deserialize`. With validation the
input must hold 97 bytes and start with the Ed25519 tag; then the type byte is
skipped and the two fields are copied. Returns the signature, the bytes read and
the error. -/
def Ed25519Signature.Deserialize (e : Ed25519Signature) (data : List Byte)
    (deSeriMode : DeSerializationMode) : Go (Ed25519Signature × Nat × Option GoError) :=
  let checked : Option GoError :=
    if HasMode deSeriMode DeSeriModePerformValidation then
      match CheckMinByteLength Ed25519SignatureSerializedBytesSize data.length with
      | some err => some (.errorf "invalid Ed25519 signature bytes: %w" err)
      | none =>
        match CheckTypeByte data SignatureEd25519 with
        | some err => some (.errorf "unable to deserialize Ed25519 signature: %w" err)
        | none => none
    else none
  match checked with
  | some err => .ret (e, 0, some err)
  | none => do
    let data1 ← sliceFrom data 1
    let pk ← sliceTo data1 32
    let rest ← sliceFrom data1 32
    .ret ({ PublicKey := copyInto e.PublicKey pk, Signature := copyInto e.Signature rest },
      Ed25519SignatureSerializedBytesSize, none)

/-- A set of signature types (`iotago.SignatureTypeSet`). -/
abbrev SignatureTypeSet := List Byte

/-- Library function `iotago.SignatureSelector`: a fresh signature object for a type tag. -/
def SignatureSelector (sigType : Nat) : Except GoError Ed25519Signature :=
  if byteOfNat sigType = SignatureEd25519 then .ok Ed25519Signature.zero
  else .error (.errorf "%w: type byte %d" (.sentinel .ErrUnknownSignatureType))

/-- Modelled from the spec: `iotago.SignatureReadGuard`: "Decoding a tag outside
the read allow-list fails with `UnsupportedSignatureType`". -/
def SignatureReadGuard (supportedSigs : SignatureTypeSet) (ty : Nat) :
    Except GoError Ed25519Signature :=
  if byteOfNat ty ∈ supportedSigs then SignatureSelector ty
  else .error (.errorf "%w: because not in set %v (%d)"
    (.sentinel .ErrTypeIsNotSupportedSignature))

/-- Modelled from the spec: `iotago.SignatureWriteGuard`: a nil object or a type
outside the write allow-list is refused. -/
def SignatureWriteGuard (supportedSigs : SignatureTypeSet) (seri : Option Signature) :
    Option GoError :=
  match seri with
  | none => some (.errorf "%w: because nil" (.sentinel .ErrTypeIsNotSupportedSignature))
  | some sig =>
    if sig.SigType ∈ supportedSigs then none
    else some (.errorf "%w: because not in set %v (%d)"
      (.sentinel .ErrTypeIsNotSupportedSignature))

/-- Modelled from the spec: `Serializer.WriteObject`: in validation mode the write
guard is asked first; then the object serializes itself (a nil object makes that
call panic) and its bytes are appended. -/
def Serializer.WriteObject (s : Serializer) (seri : Option Signature)
    (deSeriMode : DeSerializationMode) (guard : Option Signature → Option GoError)
    (errProducer : ErrProducer) : Go Serializer :=
  match s.err with
  | some _ => .ret s
  | none =>
    let guarded : Option GoError :=
      if HasMode deSeriMode DeSeriModePerformValidation then guard seri else none
    match guarded with
    | some err => .ret { s with err := some (errProducer err) }
    | none =>
      match seri with
      | none => .abort "invalid memory address or nil pointer dereference"
      | some sig =>
        match sig.Serialize deSeriMode with
        | (_, some err) => .ret { s with err := some (errProducer err) }
        | (seriBytes, none) => .ret { s with buf := s.buf ++ seriBytes }

/-- Modelled from the spec: `Deserializer.ReadObject`: reads the type tag, asks the
read guard for the object of that type, lets it deserialize itself from the bytes at
the offset and stores it in `*target`; the second component is `*target` afterwards. -/
def Deserializer.ReadObject (d : Deserializer) (target : Option Signature)
    (deSeriMode : DeSerializationMode) (typeDen : TypeDenotationType)
    (serSel : Nat → Except GoError Ed25519Signature) (errProducer : ErrProducer) :
    Go (Deserializer × Option Signature) :=
  match d.err with
  | some _ => .ret (d, target)
  | none => do
    let rest ← sliceFrom d.src d.offset
    let ty : Except GoError Nat :=
      match typeDen with
      | .Uint32 =>
        if rest.length < 4 then .error (.sentinel .ErrDeserializationNotEnoughData)
        else .ok (uintLE (rest.take 4))
      | .Byte =>
        match rest with
        | [] => .error (.sentinel .ErrDeserializationNotEnoughData)
        | b :: _ => .ok b.val
      | .None => .ok 0
    match ty with
    | .error e => .ret ({ d with err := some (errProducer e) }, target)
    | .ok ty =>
      match serSel ty with
      | .error e => .ret ({ d with err := some (errProducer e) }, target)
      | .ok seri => do
        let (seri1, bytesConsumed, err) ← seri.Deserialize rest deSeriMode
        match err with
        | some e => .ret ({ d with err := some (errProducer e) }, target)
        | none =>
          .ret ({ d with offset := d.offset + bytesConsumed }, some (.ed25519 seri1))

/-! ## Cryptographic primitives -/

/-- The cryptographic primitives the package calls; they are parameters of the
model. -/
structure Primitives where
  /-- The hash `blake2b.Sum256`. -/
  blake2b_Sum256 : List Byte → ByteArrayN 32
  /-- The private key of `ed25519.NewKeyFromSeed(seed)` for a 32-byte seed. -/
  ed25519_NewKeyFromSeed : List Byte → List Byte
  /-- The signature of `ed25519.Sign(privateKey, message)` for a 64-byte private key. -/
  ed25519_Sign : List Byte → List Byte → List Byte
  /-- The check `iotagoEd25519.Verify(publicKey, message, sig)`. -/
  ed25519_Verify : List Byte → List Byte → List Byte → Bool

/-- Go `ed25519.PrivateKey.Public()`: a 32-byte slice filled from `priv[32:]`. -/
def ed25519_Public (priv : List Byte) : Go (List Byte) := do
  let tail ← sliceFrom priv 32
  .ret (copyInto (ByteArrayN.zero 32) tail).val

/-- Go `ed25519.Sign`, which panics unless the private key holds 64 bytes. -/
def ed25519_SignGo (P : Primitives) (priv message : List Byte) : Go (List Byte) :=
  if priv.length ≠ 64 then .abort "ed25519: bad private key length"
  else .ret (P.ed25519_Sign priv message)

/-! ## signer.go -/

/-- A `crypto.PrivateKey` (any value): an `ed25519.PrivateKey` byte slice, or a
value of another type, given by its type name. -/
inductive PrivateKey where
  | ed25519 (k : List Byte)
  | other (typeName : String)

/-- Interface `Signer`: produces the signature for a message. -/
structure Signer where
  Sign : List Byte → Go (Option Signature × Option GoError)

/-- Struct `InMemorySigner`: holds keys in memory. -/
structure InMemorySigner where
  privateKey : PrivateKey

/-- Method `InMemorySigner.Sign`. -/
def InMemorySigner.Sign (P : Primitives) (s : InMemorySigner) (msg : List Byte) :
    Go (Option Signature × Option GoError) :=
  match s.privateKey with
  | .ed25519 prvKey => do
    let ed25519Sig := Ed25519Signature.zero
    let sigBytes ← ed25519_SignGo P prvKey msg
    let ed25519Sig := { ed25519Sig with Signature := copyInto ed25519Sig.Signature sigBytes }
    let pub ← ed25519_Public prvKey
    let ed25519Sig := { ed25519Sig with PublicKey := copyInto ed25519Sig.PublicKey pub }
    .ret (some (.ed25519 ed25519Sig), none)
  | .other _ => .ret (none, some (.errorf "%w: type %T" (.sentinel .ErrUnknownPrivateKeyType)))

/-- Function `NewInMemorySigner`. -/
def NewInMemorySigner (P : Primitives) (privateKey : PrivateKey) : Signer :=
  ⟨InMemorySigner.Sign P ⟨privateKey⟩⟩

/-! ## signed_data_container.go -/

/-- Constant `TaggedDataPayloadTypeSignedDataContainer`. -/
def TaggedDataPayloadTypeSignedDataContainer : Byte := 0

/-- Variable `signedDataContainerSupportedSigTypes`. -/
def signedDataContainerSupportedSigTypes : SignatureTypeSet := [SignatureEd25519]

/-- Struct `SignedDataContainer`; `Signature` is `none` for a nil signature. -/
structure SignedDataContainer where
  Data : List Byte
  Signature : Option Signature

/-- The empty container `&SignedDataContainer{}`. -/
def SignedDataContainer.fresh : SignedDataContainer := ⟨[], none⟩

/-- Method `Essence`: the BLAKE2b-256 hash of the type byte and the length-prefixed
data. -/
def SignedDataContainer.Essence (P : Primitives) (s : SignedDataContainer) :
    List Byte × Option GoError :=
  match ((NewSerializer.WriteByte TaggedDataPayloadTypeSignedDataContainer
      (.errorf "unable to serialize signed data container type essence: %w")).WriteVariableByteSlice
      s.Data .AsUint16
      (.errorf "unable to serialize signed data container data for essence: %w") 0 0).Serialize with
  | (_, some err) => ([], some err)
  | (essenceBytes, none) => ((P.blake2b_Sum256 essenceBytes).val, none)

/-- Method `sign`: the container afterwards and the error. -/
def SignedDataContainer.sign (P : Primitives) (s : SignedDataContainer) (signer : Signer) :
    Go (SignedDataContainer × Option GoError) :=
  match s.Essence P with
  | (_, some err) =>
    .ret (s, some (.errorf "unable to compute essence for signed data container: %w" err))
  | (essence, none) => do
    let (signature, err) ← signer.Sign essence
    match err with
    | some err =>
      .ret (s, some (.errorf "unable to produce signed data container signature: %w" err))
    | none => .ret ({ s with Signature := signature }, none)

/-- Function `NewSignedDataContainer`. -/
def NewSignedDataContainer (P : Primitives) (signer : Signer) (data : List Byte) :
    Go (Option SignedDataContainer × Option GoError) := do
  let container : SignedDataContainer := { Data := data, Signature := none }
  let (container, err) ← container.sign P signer
  match err with
  | some err => .ret (none, some err)
  | none => .ret (some container, none)

/-- Method `VerifySignature`; `none` is a nil error. -/
def SignedDataContainer.VerifySignature (P : Primitives) (s : SignedDataContainer) :
    Option GoError :=
  match s.Signature with
  | none => some (.errorf "%w: no signature given" (.sentinel .ErrInvalidSignature))
  | some signature =>
    match s.Essence P with
    | (_, some err) =>
      some (.errorf
        "unable to compute signed data container essence for signature verification: %w" err)
    | (essence, none) =>
      match signature with
      | .ed25519 edSig =>
        if P.ed25519_Verify edSig.PublicKey.val essence edSig.Signature.val then none
        else some (.errorf "%w: %s" (.sentinel .ErrInvalidSignature))
      | .foreign _ => some (.errorf "%w: type %T" (.sentinel .ErrUnknownPrivateKeyType))

/-- Method `PublicKey`: the key (`none` is nil) and the error. -/
def SignedDataContainer.PublicKey (s : SignedDataContainer) :
    Option (ByteArrayN 32) × Option GoError :=
  match s.Signature with
  | none => (none, some (.errorf "%w: no signature given" (.sentinel .ErrInvalidSignature)))
  | some (.ed25519 edSig) => (some edSig.PublicKey, none)
  | some (.foreign _) => (none, some (.errorf "%w: type %T" (.sentinel .ErrUnknownSignatureType)))

/-- Method `Deserialize`: the container afterwards, the bytes read and the error. -/
def SignedDataContainer.Deserialize (s : SignedDataContainer) (data : List Byte)
    (deSeriMode : DeSerializationMode) : Go (SignedDataContainer × Nat × Option GoError) := do
  let d ← Deserializer.CheckTypePrefix (NewDeserializer data)
    TaggedDataPayloadTypeSignedDataContainer.val .Byte
    (.errorf "unable to deserialize signed data container type: %w")
  let (d, sData) ← d.ReadVariableByteSlice s.Data .AsUint16
    (.errorf "unable to deserialize signed data container data: %w") 0 0
  let (d, sSignature) ← d.ReadObject s.Signature deSeriMode .Byte
    (SignatureReadGuard signedDataContainerSupportedSigTypes)
    (.errorf "unable to deserialize signed data container signature: %w")
  let d ← d.ConsumedAll (fun _leftOver err => .errorf
    "unable to deserialize signed data container: %w: %d bytes are still available" err)
  let (n, err) := d.Done
  .ret ({ Data := sData, Signature := sSignature }, n, err)

/-- Method `Serialize`. -/
def SignedDataContainer.Serialize (s : SignedDataContainer) (deSeriMode : DeSerializationMode) :
    Go (List Byte × Option GoError) := do
  let w ← ((NewSerializer.WriteByte TaggedDataPayloadTypeSignedDataContainer
      (.errorf "unable to serialize signed data container type: %w")).WriteVariableByteSlice
      s.Data .AsUint16
      (.errorf "unable to serialize signed data container data: %w") 0 0).WriteObject
      s.Signature deSeriMode (SignatureWriteGuard signedDataContainerSupportedSigTypes)
      (.errorf "unable to serialize signed data container signature: %w")
  .ret w.Serialize

/-- Function `NewSignedDataContainerFromBytes`; indexing `data[0]` panics on an
empty slice. -/
def NewSignedDataContainerFromBytes (data : List Byte) :
    Go (Option SignedDataContainer × Option GoError) :=
  match data with
  | [] => .abort "index out of range [0] with length 0"
  | b :: _ =>
    if b ≠ TaggedDataPayloadTypeSignedDataContainer then
      .ret (none, some (.sentinel .ErrNotASignedDataContainer))
    else do
      let container := SignedDataContainer.fresh
      let (container, _, err) ← container.Deserialize data DeSeriModePerformValidation
      match err with
      | some err => .ret (none, some err)
      | none => .ret (some container, none)

/-! ## The text form

A JSON text is represented by the document it denotes (`Json`): the functions
below are `encoding/json` and the `iota.go` helpers at the level of documents. -/

/-- The digits of `encoding/hex`. -/
def hexDigits : List Char :=
  ['0', '1', '2', '3', '4', '5', '6', '7', '8', '9', 'a', 'b', 'c', 'd', 'e', 'f']

/-- The hex digit of a value below 16. -/
def hexDigit (v : Nat) : Char := hexDigits.getD v '0'

/-- Value of a hex digit of either case (`fromHexChar` of `encoding/hex`). -/
def fromHexChar (c : Char) : Option Nat :=
  if '0' ≤ c ∧ c ≤ '9' then some (c.toNat - '0'.toNat)
  else if 'a' ≤ c ∧ c ≤ 'f' then some (c.toNat - 'a'.toNat + 10)
  else if 'A' ≤ c ∧ c ≤ 'F' then some (c.toNat - 'A'.toNat + 10)
  else none

/-- Go `hex.EncodeToString`. -/
def hex_Encode : List Byte → List Char
  | [] => []
  | b :: bs => hexDigit (b.val / 16) :: hexDigit (b.val % 16) :: hex_Encode bs

/-- Go `hex.DecodeString` with the errors as `hexutil` maps them. -/
def hex_Decode : List Char → Except GoError (List Byte)
  | [] => .ok []
  | [c] =>
    match fromHexChar c with
    | none => .error (.new "invalid hex string")
    | some _ => .error (.new "hex string of odd length")
  | c1 :: c2 :: cs =>
    match fromHexChar c1, fromHexChar c2 with
    | some hi, some lo =>
      match hex_Decode cs with
      | .ok bs => .ok (byteOfNat (hi * 16 + lo) :: bs)
      | .error e => .error e
    | _, _ => .error (.new "invalid hex string")

/-- Library function `iotago.EncodeHex`: the `0x` form, the empty string for no bytes. -/
def EncodeHex (b : List Byte) : String :=
  match b with
  | [] => ""
  | _ :: _ => String.mk ('0' :: 'x' :: hex_Encode b)

/-- Library function `iotago.DecodeHex`: expects the `0x` form; the empty string
decodes to no bytes. -/
def DecodeHex (s : String) : List Byte × Option GoError :=
  match s.data with
  | [] => ([], none)
  | [_] => ([], some (.new "hex string without 0x prefix"))
  | c0 :: c1 :: cs =>
    if c0 = '0' ∧ (c1 = 'x' ∨ c1 = 'X') then
      match hex_Decode cs with
      | .ok b => (b, none)
      | .error e => ([], some e)
    else ([], some (.new "hex string without 0x prefix"))

/-- The alphabet of `base64.StdEncoding`. -/
def base64Alphabet : List Char :=
  ['A', 'B', 'C', 'D', 'E', 'F', 'G', 'H', 'I', 'J', 'K', 'L', 'M', 'N', 'O', 'P',
   'Q', 'R', 'S', 'T', 'U', 'V', 'W', 'X', 'Y', 'Z', 'a', 'b', 'c', 'd', 'e', 'f',
   'g', 'h', 'i', 'j', 'k', 'l', 'm', 'n', 'o', 'p', 'q', 'r', 's', 't', 'u', 'v',
   'w', 'x', 'y', 'z', '0', '1', '2', '3', '4', '5', '6', '7', '8', '9', '+', '/']

/-- The base64 digit of a value below 64. -/
def base64Digit (v : Nat) : Char := base64Alphabet.getD v 'A'

/-- The value of a base64 digit. -/
def base64Value (c : Char) : Option Nat :=
  let i := base64Alphabet.indexOf c
  if i < 64 then some i else none

/-- Go `base64.StdEncoding.EncodeToString` (with `=` padding). -/
def base64_Encode : List Byte → List Char
  | [] => []
  | [a] => [base64Digit (a.val / 4), base64Digit (a.val % 4 * 16), '=', '=']
  | [a, b] =>
    [base64Digit (a.val / 4), base64Digit (a.val % 4 * 16 + b.val / 16),
     base64Digit (b.val % 16 * 4), '=']
  | a :: b :: c :: rest =>
    base64Digit (a.val / 4) :: base64Digit (a.val % 4 * 16 + b.val / 16) ::
    base64Digit (b.val % 16 * 4 + c.val / 64) :: base64Digit (c.val % 64) ::
    base64_Encode rest

/-- Go `base64.StdEncoding.DecodeString`: groups of four digits, padding only in
the last group (the skipping of line breaks is not modelled); `none` is an error. -/
def base64_Decode : List Char → Option (List Byte)
  | [] => some []
  | c1 :: c2 :: c3 :: c4 :: rest =>
    match base64Value c1, base64Value c2 with
    | some v1, some v2 =>
      if c3 = '=' then
        if c4 = '=' ∧ rest = [] then some [byteOfNat (v1 * 4 + v2 / 16)] else none
      else
        match base64Value c3 with
        | none => none
        | some v3 =>
          if c4 = '=' then
            if rest = [] then
              some [byteOfNat (v1 * 4 + v2 / 16), byteOfNat (v2 % 16 * 16 + v3 / 4)]
            else none
          else
            match base64Value c4 with
            | none => none
            | some v4 =>
              match base64_Decode rest with
              | none => none
              | some bs =>
                some (byteOfNat (v1 * 4 + v2 / 16) :: byteOfNat (v2 % 16 * 16 + v3 / 4) ::
                  byteOfNat (v3 % 4 * 64 + v4) :: bs)
    | _, _ => none
  | _ => none

/-- ASCII lower case of a character. -/
def asciiLower (c : Char) : Char :=
  if 'A' ≤ c ∧ c ≤ 'Z' then Char.ofNat (c.toNat + 32) else c

/-- Whether a JSON key selects the struct field with the given tag: `encoding/json`
matches keys exactly or case-insensitively (here: up to ASCII case). -/
def keyMatches (key field : String) : Bool :=
  decide (key.data.map asciiLower = field.data.map asciiLower)

/-- The error of `encoding/json` for a value that does not fit the Go field. -/
def jsonTypeError : GoError := .new "json: cannot unmarshal value into Go struct field"

/-- The first error met is the one `encoding/json` reports. -/
def firstError (saved new : Option GoError) : Option GoError :=
  match saved with
  | some e => some e
  | none => new

/-- Decoding a JSON value into a Go `int` field: `null` leaves it unchanged, a
number must fit 64 bits. -/
def json_decodeInt (v : Json) (old : Int) : Int × Option GoError :=
  match v with
  | .null => (old, none)
  | .num n =>
    if -9223372036854775808 ≤ n ∧ n ≤ 9223372036854775807 then (n, none)
    else (old, some jsonTypeError)
  | _ => (old, some jsonTypeError)

/-- Decoding a JSON value into a Go `string` field. -/
def json_decodeString (v : Json) (old : String) : String × Option GoError :=
  match v with
  | .null => (old, none)
  | .str s => (s, none)
  | _ => (old, some jsonTypeError)

/-- One element of a JSON array decoded into a byte. -/
def json_decodeByte (v : Json) : Option Byte :=
  match v with
  | .num n => if 0 ≤ n ∧ n ≤ 255 then some (byteOfNat n.toNat) else none
  | _ => none

/-- Decoding a JSON value into a Go `[]byte` field: a base64 string, `null`, or an
array of numbers below 256. -/
def json_decodeBytes (v : Json) (old : List Byte) : List Byte × Option GoError :=
  match v with
  | .null => ([], none)
  | .str s =>
    match base64_Decode s.data with
    | some b => (b, none)
    | none => (old, some (.new "illegal base64 data"))
  | .arr items =>
    match items.mapM json_decodeByte with
    | some b => (b, none)
    | none => (old, some jsonTypeError)
  | _ => (old, some jsonTypeError)

/-- Decoding a JSON value into a Go `*json.RawMessage` field: `null` gives the nil
pointer, any other value is kept as it is. -/
def json_decodeRaw (v : Json) : Option Json :=
  match v with
  | .null => none
  | v => some v

/-- Struct `jsonSignedDataContainer`, the JSON representation of a container
(`Typ` is the field `Type`). -/
structure jsonSignedDataContainer where
  Typ : Int
  Data : List Byte
  Signature : Option Json

/-- Go `json.Marshal` of a `jsonSignedDataContainer`. -/
def jsonSignedDataContainer.Marshal (j : jsonSignedDataContainer) : Json :=
  .obj [("type", .num j.Typ), ("data", .str (String.mk (base64_Encode j.Data))),
    ("signature", match j.Signature with
      | none => .null
      | some raw => raw)]

/-- One key of a JSON object decoded into a `jsonSignedDataContainer`. -/
def jsonSignedDataContainer.decodeField (st : jsonSignedDataContainer × Option GoError)
    (kv : String × Json) : jsonSignedDataContainer × Option GoError :=
  let (j, saved) := st
  if keyMatches kv.1 "type" then
    let (n, err) := json_decodeInt kv.2 j.Typ
    ({ j with Typ := n }, firstError saved err)
  else if keyMatches kv.1 "data" then
    let (b, err) := json_decodeBytes kv.2 j.Data
    ({ j with Data := b }, firstError saved err)
  else if keyMatches kv.1 "signature" then
    ({ j with Signature := json_decodeRaw kv.2 }, saved)
  else (j, saved)

/-- Go `json.Unmarshal` into a `jsonSignedDataContainer`. -/
def jsonSignedDataContainer.Unmarshal (doc : Json) (j : jsonSignedDataContainer) :
    jsonSignedDataContainer × Option GoError :=
  match doc with
  | .null => (j, none)
  | .obj fields => fields.foldl jsonSignedDataContainer.decodeField (j, none)
  | _ => (j, some jsonTypeError)

/-- Struct `iotago.jsonEd25519Signature` (`Typ` is the field `Type`). -/
structure jsonEd25519Signature where
  Typ : Int
  PublicKey : String
  Signature : String

/-- Go `json.Marshal` of a `jsonEd25519Signature`. -/
def jsonEd25519Signature.Marshal (j : jsonEd25519Signature) : Json :=
  .obj [("type", .num j.Typ), ("publicKey", .str j.PublicKey), ("signature", .str j.Signature)]

/-- One key of a JSON object decoded into a `jsonEd25519Signature`. -/
def jsonEd25519Signature.decodeField (st : jsonEd25519Signature × Option GoError)
    (kv : String × Json) : jsonEd25519Signature × Option GoError :=
  let (j, saved) := st
  if keyMatches kv.1 "type" then
    let (n, err) := json_decodeInt kv.2 j.Typ
    ({ j with Typ := n }, firstError saved err)
  else if keyMatches kv.1 "publicKey" then
    let (v, err) := json_decodeString kv.2 j.PublicKey
    ({ j with PublicKey := v }, firstError saved err)
  else if keyMatches kv.1 "signature" then
    let (v, err) := json_decodeString kv.2 j.Signature
    ({ j with Signature := v }, firstError saved err)
  else (j, saved)

/-- Go `json.Unmarshal` into a `jsonEd25519Signature`. -/
def jsonEd25519Signature.Unmarshal (doc : Json) (j : jsonEd25519Signature) :
    jsonEd25519Signature × Option GoError :=
  match doc with
  | .null => (j, none)
  | .obj fields => fields.foldl jsonEd25519Signature.decodeField (j, none)
  | _ => (j, some jsonTypeError)

/-- Go `json.Unmarshal` into the envelope that only holds the `type` of an object. -/
def jsonEnvelope_Unmarshal (doc : Json) : Int × Option GoError :=
  match doc with
  | .null => (0, none)
  | .obj fields =>
    fields.foldl (fun (st : Int × Option GoError) kv =>
      if keyMatches kv.1 "type" then
        let (n, err) := json_decodeInt kv.2 st.1
        (n, firstError st.2 err)
      else st) (0, none)
  | _ => (0, some jsonTypeError)

/-- Modelled from the spec: `Ed25519Signature.MarshalJSON`: "nested object carrying
its own type discriminant and algorithm-specific fields", the fields in hex. -/
def Ed25519Signature.MarshalJSON (e : Ed25519Signature) : Json × Option GoError :=
  (jsonEd25519Signature.Marshal
    { Typ := SignatureEd25519.val, PublicKey := EncodeHex e.PublicKey.val,
      Signature := EncodeHex e.Signature.val }, none)

/-- Method `MarshalJSON` of a signature. -/
def Signature.MarshalJSON (sig : Signature) : Json × Option GoError :=
  match sig with
  | .ed25519 e => e.MarshalJSON
  | .foreign f => f.Marshalled

/-- Modelled from the spec: `jsonEd25519Signature.ToSerializable`: decodes the two
hex fields and copies them into the fixed-width arrays. -/
def jsonEd25519Signature.ToSerializable (j : jsonEd25519Signature) :
    Option Ed25519Signature × Option GoError :=
  match DecodeHex j.PublicKey with
  | (_, some err) =>
    (none, some (.errorf
      "unable to decode public key from JSON for Ed25519 signature: %w" err))
  | (pubKeyBytes, none) =>
    match DecodeHex j.Signature with
    | (_, some err) =>
      (none, some (.errorf
        "unable to decode signature from JSON for Ed25519 signature: %w" err))
    | (sigBytes, none) =>
      (some { PublicKey := copyInto (ByteArrayN.zero 32) pubKeyBytes,
              Signature := copyInto (ByteArrayN.zero 64) sigBytes }, none)

/-- Go conversion of an `int` to a byte. -/
def byteOfInt (n : Int) : Byte := byteOfNat (n % 256).toNat

/-- Library function `jsonSignatureSelector`: the JSON object for a signature type. -/
def jsonSignatureSelector (ty : Int) : Except GoError jsonEd25519Signature :=
  if byteOfInt ty = SignatureEd25519 then .ok { Typ := 0, PublicKey := "", Signature := "" }
  else .error (.errorf "unable to decode signature type from JSON: %w"
    (.sentinel .ErrUnknownUnlockType))

/-- Modelled from the spec: `iotago.SignatureFromJSONRawMsg`: reads the type of the
nested object, selects the variant and decodes the object into it. A nil raw message
makes the call panic. -/
def SignatureFromJSONRawMsg (jRawMsg : Option Json) : Go (Option Signature × Option GoError) :=
  match jRawMsg with
  | none => .abort "invalid memory address or nil pointer dereference"
  | some raw =>
    match jsonEnvelope_Unmarshal raw with
    | (_, some err) =>
      .ret (none, some (.errorf "can't decode signature type from JSON: %w" err))
    | (ty, none) =>
      match jsonSignatureSelector ty with
      | .error err =>
        .ret (none, some (.errorf "can't decode signature type from JSON: %w" err))
      | .ok obj =>
        match jsonEd25519Signature.Unmarshal raw obj with
        | (_, some err) =>
          .ret (none, some (.errorf "can't decode signature type from JSON: %w" err))
        | (obj1, none) =>
          match obj1.ToSerializable with
          | (_, some err) => .ret (none, some err)
          | (none, none) => .ret (none, none)
          | (some sig, none) => .ret (some (.ed25519 sig), none)

/-- Method `MarshalJSON` of a container; calling `MarshalJSON` on a nil signature
panics. -/
def SignedDataContainer.MarshalJSON (s : SignedDataContainer) : Go (Option Json × Option GoError) :=
  match s.Signature with
  | none => .abort "invalid memory address or nil pointer dereference"
  | some signature =>
    match signature.MarshalJSON with
    | (_, some err) => .ret (none, some err)
    | (jsonSig, none) =>
      .ret (some (jsonSignedDataContainer.Marshal
        { Typ := TaggedDataPayloadTypeSignedDataContainer.val, Data := s.Data,
          Signature := some jsonSig }), none)

/-- Method `jsonSignedDataContainer.ToSerializable`. -/
def jsonSignedDataContainer.ToSerializable (j : jsonSignedDataContainer) :
    Go (Option SignedDataContainer × Option GoError) := do
  let (signature, err) ← SignatureFromJSONRawMsg j.Signature
  match err with
  | some err => .ret (none, some err)
  | none => .ret (some { Data := j.Data, Signature := signature }, none)

/-- Method `UnmarshalJSON` of a container: the container afterwards and the error. -/
def SignedDataContainer.UnmarshalJSON (s : SignedDataContainer) (bytes : Json) :
    Go (SignedDataContainer × Option GoError) :=
  match jsonSignedDataContainer.Unmarshal bytes { Typ := 0, Data := [], Signature := none } with
  | (_, some err) => .ret (s, some err)
  | (jSignedDataContainer, none) => do
    let (seri, err) ← jSignedDataContainer.ToSerializable
    match err, seri with
    | some err, _ => .ret (s, some err)
    | none, some c => .ret (c, none)
    | none, none => .abort "invalid memory address or nil pointer dereference"

/-! ## The wire layout and a small instance of the primitives -/

/-- The wire layout of the spec for the head of a container: the container type
tag, the 2-byte little-endian length of the data, the data. -/
def wireHeader (data : List Byte) : List Byte :=
  TaggedDataPayloadTypeSignedDataContainer :: (putUint16LE data.length ++ data)

/-- The wire layout of the spec for an Ed25519 signature: the signature type tag,
the 32-byte public key, the 64-byte signature. -/
def wireSignature (sig : Ed25519Signature) : List Byte :=
  SignatureEd25519 :: (sig.PublicKey.val ++ sig.Signature.val)

/-- The wire layout of the spec for a container with an Ed25519 signature. -/
def wireLayout (data : List Byte) (sig : Ed25519Signature) : List Byte :=
  wireHeader data ++ wireSignature sig

/-- What the model assumes of the Ed25519 library: keys made from a 32-byte seed
hold 64 bytes, signatures hold 64 bytes, and a signature made with such a key
verifies under the public key stored in the key. -/
structure Primitives.Ed25519Correct (P : Primitives) : Prop where
  key_length : ∀ seed : List Byte, seed.length = 32 →
    (P.ed25519_NewKeyFromSeed seed).length = 64
  sign_length : ∀ seed message : List Byte, seed.length = 32 →
    (P.ed25519_Sign (P.ed25519_NewKeyFromSeed seed) message).length = 64
  verify_sign : ∀ seed message : List Byte, seed.length = 32 →
    P.ed25519_Verify ((P.ed25519_NewKeyFromSeed seed).drop 32) message
      (P.ed25519_Sign (P.ed25519_NewKeyFromSeed seed) message) = true

/-- A small instance of the primitives on which the model can be run; it has the
interface of the real ones and none of their strength. -/
def toyPrimitives : Primitives where
  blake2b_Sum256 m := copyInto (ByteArrayN.zero 32) m
  ed25519_NewKeyFromSeed seed := seed ++ seed
  ed25519_Sign k m := (copyInto (ByteArrayN.zero 64) (k.take 32 ++ m.take 32)).val
  ed25519_Verify pk m sig :=
    decide (sig = (copyInto (ByteArrayN.zero 64) (pk ++ m.take 32)).val)

/-- A signer that panics when it is run. -/
def abortingSigner : Signer := ⟨fun _ => .abort "signer invoked"⟩

/-- Whether `target` occurs in the `%w` chain of an error (the error itself included). -/
def GoError.Wraps : GoError → GoError → Bool
  | .sentinel s, target => decide (GoError.sentinel s = target)
  | .new msg, target => decide (GoError.new msg = target)
  | .errorf format inner, target =>
    decide (GoError.errorf format inner = target) || inner.Wraps target

/-- A signature of a type other than `*iotago.Ed25519Signature`, for running the
`default:` branches: it reports type 1 and serializes to its type byte. -/
def exampleForeignSignature : ForeignSignature where
  TypeName := "*example.OtherSignature"
  SigType := 1
  Serialized := ([1], none)
  Marshalled := (.obj [("type", .num 1)], none)

/-- Two decoding states that agree on everything but the `type` field. -/
def AgreeButType (st1 st2 : jsonSignedDataContainer × Option GoError) : Prop :=
  st1.1.Data = st2.1.Data ∧ st1.1.Signature = st2.1.Signature ∧ st1.2 = st2.2

/-! # Theorems -/

/-! ## Lemmas on the binary codec -/

@[simp] theorem Go.ret_bind {α β : Type} (a : α) (f : α → Go β) : (Go.ret a >>= f) = f a := rfl
@[simp] theorem Go.abort_bind {α β : Type} (m : String) (f : α → Go β) :
    ((Go.abort m : Go α) >>= f) = Go.abort m := rfl
@[simp] theorem Go.pure_eq {α : Type} (a : α) : (pure a : Go α) = Go.ret a := rfl

theorem uintLE_putUint16LE (n : Nat) (h : n ≤ 65535) : uintLE (putUint16LE n) = n := by
  simp only [putUint16LE, uintLE, byteOfNat]
  omega

theorem putUint16LE_length (n : Nat) : (putUint16LE n).length = 2 := rfl

theorem wireHeader_length (data : List Byte) : (wireHeader data).length = 3 + data.length := by
  simp [wireHeader, putUint16LE_length]; omega

theorem sigBytes_length (sig : Ed25519Signature) : (wireSignature sig).length = 97 := by
  simp [wireSignature, sig.PublicKey.property, sig.Signature.property]

theorem checkTypePrefix_header (data tail : List Byte) (ep : ErrProducer) :
    Deserializer.CheckTypePrefix (NewDeserializer (wireHeader data ++ tail))
      TaggedDataPayloadTypeSignedDataContainer.val .Byte ep
      = .ret ⟨wireHeader data ++ tail, 1, none⟩ := by
  simp [Deserializer.CheckTypePrefix, NewDeserializer, wireHeader, sliceFrom, CheckTypeByte,
    Deserializer.Skip, byteOfNat, TaggedDataPayloadTypeSignedDataContainer]

theorem readVariableByteSlice_header (data tail slice : List Byte) (ep : ErrProducer)
    (h : data.length ≤ 65535) :
    Deserializer.ReadVariableByteSlice ⟨wireHeader data ++ tail, 1, none⟩ slice .AsUint16 ep 0 0
      = .ret (⟨wireHeader data ++ tail, 3 + data.length, none⟩, data) := by
  have h2 : List.take 2 (putUint16LE data.length ++ (data ++ tail)) = putUint16LE data.length := by
    simp [putUint16LE]
  simp [Deserializer.ReadVariableByteSlice, Deserializer.readSliceLength, wireHeader, sliceFrom,
    putUint16LE_length, h2, uintLE_putUint16LE _ h]

theorem sliceFrom_header (data tail : List Byte) :
    sliceFrom (wireHeader data ++ tail) (3 + data.length) = .ret tail := by
  have h := wireHeader_length data
  simp [sliceFrom, ← h]

theorem copyInto_take {n : Nat} (dst : ByteArrayN n) (src : List Byte) (h : n ≤ src.length) :
    (copyInto dst src).val = src.take n := by
  simp [copyInto, Nat.min_eq_left h, dst.property]

theorem ed25519_deserialize_sigBytes (e sig : Ed25519Signature) (t : List Byte)
    (mode : DeSerializationMode) :
    e.Deserialize (wireSignature sig ++ t) mode = .ret (sig, 97, none) := by
  have hp := sig.PublicKey.property
  have hs := sig.Signature.property
  have e1 : copyInto e.PublicKey sig.PublicKey.val = sig.PublicKey :=
    Subtype.ext (by rw [copyInto_take _ _ (by omega)]; exact List.take_of_length_le (by omega))
  have e2 : copyInto e.Signature (sig.Signature.val ++ t) = sig.Signature :=
    Subtype.ext (by
      rw [copyInto_take _ _ (by rw [List.length_append]; omega)]; exact List.take_left' hs)
  have l1 : 32 ≤ (sig.PublicKey.val ++ (sig.Signature.val ++ t)).length := by
    rw [List.length_append]; omega
  have t1 : List.take 32 (sig.PublicKey.val ++ (sig.Signature.val ++ t)) = sig.PublicKey.val :=
    List.take_left' hp
  have d1 : List.drop 32 (sig.PublicKey.val ++ (sig.Signature.val ++ t)) = sig.Signature.val ++ t :=
    List.drop_left' hp
  have l2 : ¬ (wireSignature sig ++ t).length < 97 := by
    rw [List.length_append, sigBytes_length]; omega
  cases hm : HasMode mode DeSeriModePerformValidation
  · simp [Ed25519Signature.Deserialize, hm, wireSignature, sliceFrom, sliceTo,
      Ed25519SignatureSerializedBytesSize, l1, t1, d1, e1, e2]
  · simp only [Ed25519Signature.Deserialize, hm, CheckMinByteLength,
      Ed25519SignatureSerializedBytesSize, l2, if_true, if_false]
    simp [wireSignature, sliceFrom, sliceTo, CheckTypeByte, l1, t1, d1, e1, e2]

theorem readObject_sigBytes (data t : List Byte) (sig : Ed25519Signature) (target : Option Signature)
    (mode : DeSerializationMode) (ep : ErrProducer) :
    Deserializer.ReadObject ⟨wireHeader data ++ (wireSignature sig ++ t), 3 + data.length, none⟩ target mode
      .Byte (SignatureReadGuard signedDataContainerSupportedSigTypes) ep
      = .ret (⟨wireHeader data ++ (wireSignature sig ++ t), 3 + data.length + 97, none⟩,
          some (.ed25519 sig)) := by
  have hd := ed25519_deserialize_sigBytes Ed25519Signature.zero sig t mode
  simp only [Deserializer.ReadObject, sliceFrom_header, Go.ret_bind]
  have hd1 : Ed25519Signature.zero.Deserialize
      (0 :: (sig.PublicKey.val ++ (sig.Signature.val ++ t))) mode = .ret (sig, 97, none) := by
    simpa [wireSignature, SignatureEd25519] using hd
  simp [wireSignature, SignatureReadGuard, SignatureSelector, signedDataContainerSupportedSigTypes,
    SignatureEd25519, byteOfNat, hd1]

theorem readObject_unsupported (data rest : List Byte) (tag : Byte) (target : Option Signature)
    (mode : DeSerializationMode) (ep : ErrProducer) (htag : tag ≠ SignatureEd25519) :
    Deserializer.ReadObject ⟨wireHeader data ++ tag :: rest, 3 + data.length, none⟩ target mode
      .Byte (SignatureReadGuard signedDataContainerSupportedSigTypes) ep
      = .ret (⟨wireHeader data ++ tag :: rest, 3 + data.length,
          some (ep (.errorf "%w: because not in set %v (%d)"
            (.sentinel .ErrTypeIsNotSupportedSignature)))⟩, target) := by
  have hb : byteOfNat tag.val = tag := by
    apply Fin.ext; simp [byteOfNat]
  simp only [Deserializer.ReadObject, sliceFrom_header, Go.ret_bind]
  simp [SignatureReadGuard, signedDataContainerSupportedSigTypes, hb, htag]

theorem wireLayout_length (data : List Byte) (sig : Ed25519Signature) :
    (wireLayout data sig).length = data.length + 100 := by
  simp [wireLayout, wireHeader_length, sigBytes_length]; omega

theorem deserialize_wire_append (s : SignedDataContainer) (data t : List Byte)
    (sig : Ed25519Signature) (mode : DeSerializationMode) (h : data.length ≤ 65535) :
    s.Deserialize (wireLayout data sig ++ t) mode
      = .ret (⟨data, some (.ed25519 sig)⟩, data.length + 100,
          if t = [] then none else some (.errorf
            "unable to deserialize signed data container: %w: %d bytes are still available"
            (.sentinel .ErrDeserializationNotAllConsumed))) := by
  have hl : (wireHeader data ++ (wireSignature sig ++ t)).length = 3 + data.length + 97 + t.length := by
    simp [wireHeader_length, sigBytes_length]; omega
  have hs : sliceFrom (wireHeader data ++ (wireSignature sig ++ t)) (3 + data.length + 97)
      = .ret t := by
    have : (wireHeader data ++ (wireSignature sig ++ t)) = (wireHeader data ++ wireSignature sig) ++ t := by simp
    rw [this]
    simp only [sliceFrom]
    rw [if_pos (by simp [wireHeader_length, sigBytes_length])]
    rw [List.drop_left' (by simp [wireHeader_length, sigBytes_length])]
  simp only [SignedDataContainer.Deserialize, wireLayout, List.append_assoc, checkTypePrefix_header,
    Go.ret_bind, readVariableByteSlice_header _ _ _ _ h, readObject_sigBytes,
    Deserializer.ConsumedAll, hl, hs]
  by_cases ht : t = []
  · subst ht; simp [Deserializer.Done]; omega
  · have : t.length ≠ 0 := by simpa using ht
    simp [Deserializer.Done, ht, this]; omega

theorem serializer_header (data : List Byte) (ep1 ep2 : ErrProducer) (h : data.length ≤ 65535) :
    (NewSerializer.WriteByte TaggedDataPayloadTypeSignedDataContainer ep1).WriteVariableByteSlice
      data .AsUint16 ep2 0 0 = ⟨wireHeader data, none⟩ := by
  simp [NewSerializer, Serializer.WriteByte, Serializer.WriteVariableByteSlice,
    Serializer.writeSliceLength, wireHeader, Nat.not_lt.mpr h]

theorem serializer_too_long (data : List Byte) (ep1 ep2 : ErrProducer) (h : 65535 < data.length) :
    (NewSerializer.WriteByte TaggedDataPayloadTypeSignedDataContainer ep1).WriteVariableByteSlice
      data .AsUint16 ep2 0 0
      = ⟨[TaggedDataPayloadTypeSignedDataContainer], some (ep2 lengthOutOfRangeError)⟩ := by
  simp [NewSerializer, Serializer.WriteByte, Serializer.WriteVariableByteSlice,
    Serializer.writeSliceLength, h]

theorem serialize_ed25519 (data : List Byte) (sig : Ed25519Signature) (mode : DeSerializationMode)
    (h : data.length ≤ 65535) :
    SignedDataContainer.Serialize ⟨data, some (.ed25519 sig)⟩ mode = .ret (wireLayout data sig, none) := by
  simp only [SignedDataContainer.Serialize, serializer_header _ _ _ h]
  cases hm : HasMode mode DeSeriModePerformValidation <;>
  simp [Serializer.WriteObject, hm, SignatureWriteGuard, Signature.SigType,
    signedDataContainerSupportedSigTypes, Signature.Serialize, Ed25519Signature.Serialize,
    Serializer.Serialize, wireLayout, wireSignature]

theorem payload_length_bound (data : List Byte) (sig : Option Signature)
    (mode : DeSerializationMode) (h : 65535 < data.length) :
    SignedDataContainer.Serialize ⟨data, sig⟩ mode
      = .ret ([], some (.errorf "unable to serialize signed data container data: %w"
          lengthOutOfRangeError)) := by
  simp [SignedDataContainer.Serialize, serializer_too_long _ _ _ h, Serializer.Serialize,
    Serializer.WriteObject]

theorem fromBytes_of_deserialize (bytes : List Byte) (c : SignedDataContainer) (n : Nat)
    (err : Option GoError)
    (h0 : bytes.head? = some TaggedDataPayloadTypeSignedDataContainer)
    (hd : SignedDataContainer.fresh.Deserialize bytes DeSeriModePerformValidation
      = .ret (c, n, err)) :
    NewSignedDataContainerFromBytes bytes
      = .ret (match err with
          | some e => (none, some e)
          | none => (some c, none)) := by
  cases bytes with
  | nil => simp at h0
  | cons b rest =>
    have hb : b = TaggedDataPayloadTypeSignedDataContainer := by simpa using h0
    subst hb
    simp only [NewSignedDataContainerFromBytes, ne_eq, not_true_eq_false, if_false, hd,
      Go.ret_bind]
    cases err <;> rfl

theorem wireHeader_head (data tail : List Byte) :
    (wireHeader data ++ tail).head? = some TaggedDataPayloadTypeSignedDataContainer := by
  simp [wireHeader]

/-! ## Binary codec: round trip and failures -/

/-- C1. Binary round trip: a container whose data holds at most 65535 bytes and
whose signature is any Ed25519 signature serializes (in every mode), and
deserializing the output into a fresh container (in every mode) succeeds, reads
exactly the length of the output and gives back the container. -/
theorem binary_round_trip (data : List Byte) (sig : Ed25519Signature)
    (mode mode1 : DeSerializationMode) (h : data.length ≤ 65535) :
    ∃ out : List Byte,
      SignedDataContainer.Serialize ⟨data, some (.ed25519 sig)⟩ mode = .ret (out, none) ∧
      SignedDataContainer.fresh.Deserialize out mode1
        = .ret (⟨data, some (.ed25519 sig)⟩, out.length, none) := by
  refine ⟨wireLayout data sig, serialize_ed25519 data sig mode h, ?_⟩
  have hd := deserialize_wire_append SignedDataContainer.fresh data [] sig mode1 h
  simpa [wireLayout_length] using hd

/-- C1 at the empty payload with the all-zero signature. -/
theorem binary_round_trip_witness :
    ([] : List Byte).length ≤ 65535 ∧
    ∃ out : List Byte,
      SignedDataContainer.Serialize ⟨[], some (.ed25519 Ed25519Signature.zero)⟩
        DeSeriModePerformValidation = .ret (out, none) ∧
      SignedDataContainer.fresh.Deserialize out DeSeriModePerformValidation
        = .ret (⟨[], some (.ed25519 Ed25519Signature.zero)⟩, out.length, none) :=
  ⟨by decide, binary_round_trip [] Ed25519Signature.zero _ _ (by decide)⟩

/-- C5. Payload length limit: when the data holds more than 65535 bytes, `Essence`
and `Serialize` (in every mode, whatever the signature) return no bytes and the
length error, and `NewSignedDataContainer` returns no container and that error
whatever the signer is, so the signer is not run. -/
theorem payload_length_limit (P : Primitives) (data : List Byte) (sig : Option Signature)
    (mode : DeSerializationMode) (signer : Signer) (h : 65535 < data.length) :
    SignedDataContainer.Essence P ⟨data, sig⟩
      = ([], some (.errorf "unable to serialize signed data container data for essence: %w"
          lengthOutOfRangeError)) ∧
    SignedDataContainer.Serialize ⟨data, sig⟩ mode
      = .ret ([], some (.errorf "unable to serialize signed data container data: %w"
          lengthOutOfRangeError)) ∧
    NewSignedDataContainer P signer data
      = .ret (none, some (.errorf "unable to compute essence for signed data container: %w"
          (.errorf "unable to serialize signed data container data for essence: %w"
            lengthOutOfRangeError))) := by
  have he : SignedDataContainer.Essence P ⟨data, none⟩
      = ([], some (.errorf "unable to serialize signed data container data for essence: %w"
          lengthOutOfRangeError)) := by
    simp [SignedDataContainer.Essence, serializer_too_long _ _ _ h, Serializer.Serialize]
  refine ⟨?_, ?_, ?_⟩
  · simp [SignedDataContainer.Essence, serializer_too_long _ _ _ h, Serializer.Serialize]
  · simp [SignedDataContainer.Serialize, serializer_too_long _ _ _ h, Serializer.Serialize,
      Serializer.WriteObject]
  · simp [NewSignedDataContainer, SignedDataContainer.sign, he]

/-- C5 at a payload of 65536 zero bytes without a signature, with a signer that
would panic if it were run. -/
theorem payload_length_limit_witness :
    65535 < (List.replicate 65536 (0 : Byte)).length ∧
    SignedDataContainer.Essence toyPrimitives ⟨List.replicate 65536 (0 : Byte), none⟩
      = ([], some (.errorf "unable to serialize signed data container data for essence: %w"
          lengthOutOfRangeError)) ∧
    SignedDataContainer.Serialize ⟨List.replicate 65536 (0 : Byte), none⟩
        DeSeriModeNoValidation
      = .ret ([], some (.errorf "unable to serialize signed data container data: %w"
          lengthOutOfRangeError)) ∧
    NewSignedDataContainer toyPrimitives abortingSigner (List.replicate 65536 (0 : Byte))
      = .ret (none, some (.errorf "unable to compute essence for signed data container: %w"
          (.errorf "unable to serialize signed data container data for essence: %w"
            lengthOutOfRangeError))) :=
  ⟨by rw [List.length_replicate]; decide,
   payload_length_limit toyPrimitives (List.replicate 65536 (0 : Byte)) none
    DeSeriModeNoValidation abortingSigner (by rw [List.length_replicate]; decide)⟩

/-- C6. Read allow-list: bytes made of the container type tag, a length-prefixed
payload, and a signature type tag other than Ed25519 (followed by anything) are
refused in every mode with the unsupported-signature-type error, by `Deserialize`
and by `NewSignedDataContainerFromBytes`. -/
theorem read_allow_list (data rest : List Byte) (tag : Byte) (mode : DeSerializationMode)
    (h : data.length ≤ 65535) (htag : tag ≠ SignatureEd25519) :
    ∃ err : GoError, err.Is .ErrTypeIsNotSupportedSignature = true ∧
      SignedDataContainer.fresh.Deserialize (wireHeader data ++ tag :: rest) mode
        = .ret (⟨data, none⟩, 3 + data.length, some err) ∧
      NewSignedDataContainerFromBytes (wireHeader data ++ tag :: rest)
        = .ret (none, some err) := by
  have hd : ∀ m : DeSerializationMode,
      SignedDataContainer.fresh.Deserialize (wireHeader data ++ tag :: rest) m
        = .ret (⟨data, none⟩, 3 + data.length,
            some (.errorf "unable to deserialize signed data container signature: %w"
              (.errorf "%w: because not in set %v (%d)"
                (.sentinel .ErrTypeIsNotSupportedSignature)))) := by
    intro m
    simp [SignedDataContainer.Deserialize, checkTypePrefix_header,
      readVariableByteSlice_header _ _ _ _ h, readObject_unsupported _ _ _ _ _ _ htag,
      Deserializer.ConsumedAll, Deserializer.Done, SignedDataContainer.fresh]
  refine ⟨_, ?_, hd mode, ?_⟩
  · simp [GoError.Is]
  · exact fromBytes_of_deserialize _ _ _ _ (wireHeader_head _ _) (hd DeSeriModePerformValidation)

/-- C6 at an empty payload followed by the signature type tag 1. -/
theorem read_allow_list_witness :
    ∃ err : GoError, err.Is .ErrTypeIsNotSupportedSignature = true ∧
      SignedDataContainer.fresh.Deserialize (wireHeader [] ++ 1 :: []) DeSeriModeNoValidation
        = .ret (⟨[], none⟩, 3 + ([] : List Byte).length, some err) ∧
      NewSignedDataContainerFromBytes (wireHeader [] ++ 1 :: []) = .ret (none, some err) :=
  read_allow_list [] [] 1 DeSeriModeNoValidation (by decide) (by decide)

/-- A successful `Serialize` of a container whose signature is absent or Ed25519:
the signature is there, the data fits, and the output is the wire layout. -/
theorem serialize_ok_inv (c : SignedDataContainer) (mode : DeSerializationMode) (enc : List Byte)
    (hc : ∀ f : ForeignSignature, c.Signature ≠ some (.foreign f))
    (henc : c.Serialize mode = .ret (enc, none)) :
    ∃ sig : Ed25519Signature, c.Signature = some (.ed25519 sig) ∧ c.Data.length ≤ 65535 ∧
      enc = wireLayout c.Data sig := by
  obtain ⟨data, sg⟩ := c
  by_cases hlen : data.length ≤ 65535
  · match sg, hc with
    | some (.ed25519 sig), _ =>
      rw [serialize_ed25519 data sig mode hlen] at henc
      refine ⟨sig, rfl, hlen, ?_⟩
      simpa using henc.symm
    | some (.foreign f), hc => exact absurd rfl (hc f)
    | none, _ =>
      exfalso
      simp only [SignedDataContainer.Serialize, serializer_header _ _ _ hlen] at henc
      cases hm : HasMode mode DeSeriModePerformValidation <;>
        simp [Serializer.WriteObject, hm, SignatureWriteGuard, Serializer.Serialize] at henc
  · exfalso
    have h2 := (payload_length_bound data sg mode (by omega))
    rw [h2] at henc
    simp at henc

/-- C7, as stated, fails: a container without data whose signature is of another
type than Ed25519 (type 1) serializes without validation to the bytes 0, 0, 0, 1;
these followed by one zero byte are refused by the read allow-list with the
unsupported-signature-type error, which is not the trailing-bytes error. -/
theorem foreign_encoding_trailing_not_reported :
    SignedDataContainer.Serialize ⟨[], some (.foreign exampleForeignSignature)⟩
        DeSeriModeNoValidation = .ret ([0, 0, 0, 1], none) ∧
    SignedDataContainer.fresh.Deserialize ([0, 0, 0, 1] ++ [0]) DeSeriModePerformValidation
      = .ret (⟨[], none⟩, 3,
          some (.errorf "unable to deserialize signed data container signature: %w"
            (.errorf "%w: because not in set %v (%d)"
              (.sentinel .ErrTypeIsNotSupportedSignature)))) ∧
    (GoError.errorf "unable to deserialize signed data container signature: %w"
      (.errorf "%w: because not in set %v (%d)"
        (.sentinel .ErrTypeIsNotSupportedSignature))).Is
      .ErrDeserializationNotAllConsumed = false ∧
    NewSignedDataContainerFromBytes ([0, 0, 0, 1] ++ [0])
      = .ret (none, some (.errorf "unable to deserialize signed data container signature: %w"
          (.errorf "%w: because not in set %v (%d)"
            (.sentinel .ErrTypeIsNotSupportedSignature)))) := by
  have h : Deserializer.ReadObject ⟨wireHeader [] ++ (1 : Byte) :: [0], 3, none⟩ none
      DeSeriModePerformValidation .Byte (SignatureReadGuard signedDataContainerSupportedSigTypes)
      (.errorf "unable to deserialize signed data container signature: %w")
      = .ret (⟨wireHeader [] ++ (1 : Byte) :: [0], 3,
          some (.errorf "unable to deserialize signed data container signature: %w"
            (.errorf "%w: because not in set %v (%d)"
              (.sentinel .ErrTypeIsNotSupportedSignature)))⟩, none) :=
    readObject_unsupported [] [0] 1 none DeSeriModePerformValidation _ (by decide)
  have hd : SignedDataContainer.fresh.Deserialize (wireHeader [] ++ (1 : Byte) :: [0])
      DeSeriModePerformValidation
      = .ret (⟨[], none⟩, 3,
          some (.errorf "unable to deserialize signed data container signature: %w"
            (.errorf "%w: because not in set %v (%d)"
              (.sentinel .ErrTypeIsNotSupportedSignature)))) := by
    simp only [SignedDataContainer.Deserialize, checkTypePrefix_header,
      readVariableByteSlice_header [] _ _ _ (by decide), Go.ret_bind, List.length_nil,
      Nat.add_zero, SignedDataContainer.fresh]
    rw [h]
    simp [Deserializer.ConsumedAll, Deserializer.Done]
  have hw : wireHeader [] ++ (1 : Byte) :: [0] = [0, 0, 0, 1] ++ [0] := by decide
  rw [hw] at hd
  refine ⟨?_, hd, rfl, ?_⟩
  · simp only [SignedDataContainer.Serialize, serializer_header [] _ _ (by decide)]
    rfl
  · exact fromBytes_of_deserialize ([0, 0, 0, 1] ++ [0]) _ _ _ (by decide) hd

/-- C7, amended. Trailing bytes: when a container whose signature is not of
another type than Ed25519 serializes successfully in some mode, its encoding
followed by any non-empty bytes is refused with the trailing-bytes error, by
`Deserialize` in every mode and by `NewSignedDataContainerFromBytes`. -/
theorem trailing_bytes_rejected (c : SignedDataContainer) (mode mode1 : DeSerializationMode)
    (enc t : List Byte) (hc : ∀ f : ForeignSignature, c.Signature ≠ some (.foreign f))
    (henc : c.Serialize mode = .ret (enc, none)) (ht : t ≠ []) :
    ∃ err : GoError, err.Is .ErrDeserializationNotAllConsumed = true ∧
      SignedDataContainer.fresh.Deserialize (enc ++ t) mode1
        = .ret (c, enc.length, some err) ∧
      NewSignedDataContainerFromBytes (enc ++ t) = .ret (none, some err) := by
  obtain ⟨sig, hsig, hlen, rfl⟩ := serialize_ok_inv c mode enc hc henc
  have hcc : c = ⟨c.Data, some (.ed25519 sig)⟩ := by
    cases c; simp_all
  have hd : ∀ m : DeSerializationMode,
      SignedDataContainer.fresh.Deserialize (wireLayout c.Data sig ++ t) m
        = .ret (c, (wireLayout c.Data sig).length, some (.errorf
            "unable to deserialize signed data container: %w: %d bytes are still available"
            (.sentinel .ErrDeserializationNotAllConsumed))) := by
    intro m
    rw [deserialize_wire_append _ _ _ _ m hlen, wireLayout_length, if_neg ht, ← hcc]
  refine ⟨_, ?_, hd mode1, ?_⟩
  · simp [GoError.Is]
  · refine fromBytes_of_deserialize _ _ _ _ ?_ (hd DeSeriModePerformValidation)
    simp [wireLayout, wireHeader]

/-- C7 (amended) at the empty payload with the all-zero signature and one trailing
zero byte. -/
theorem trailing_bytes_rejected_witness :
    SignedDataContainer.Serialize ⟨[], some (.ed25519 Ed25519Signature.zero)⟩
        DeSeriModePerformValidation = .ret (wireLayout [] Ed25519Signature.zero, none) ∧
    ([0] : List Byte) ≠ [] ∧
    ∃ err : GoError, err.Is .ErrDeserializationNotAllConsumed = true ∧
      SignedDataContainer.fresh.Deserialize (wireLayout [] Ed25519Signature.zero ++ [0])
          DeSeriModePerformValidation
        = .ret (⟨[], some (.ed25519 Ed25519Signature.zero)⟩,
            (wireLayout [] Ed25519Signature.zero).length, some err) ∧
      NewSignedDataContainerFromBytes (wireLayout [] Ed25519Signature.zero ++ [0])
        = .ret (none, some err) :=
  ⟨serialize_ed25519 [] Ed25519Signature.zero _ (by decide), by decide,
   trailing_bytes_rejected ⟨[], some (.ed25519 Ed25519Signature.zero)⟩
    DeSeriModePerformValidation DeSeriModePerformValidation
    (wireLayout [] Ed25519Signature.zero) [0]
    (by intro f hf; cases hf)
    (serialize_ed25519 [] Ed25519Signature.zero _ (by decide)) (by decide)⟩

/-- C8. Container type check: for bytes whose first byte is not the container type
tag, `NewSignedDataContainerFromBytes` returns no container and exactly
`ErrNotASignedDataContainer`, whatever follows. -/
theorem container_type_check (b : Byte) (rest : List Byte)
    (h : b ≠ TaggedDataPayloadTypeSignedDataContainer) :
    NewSignedDataContainerFromBytes (b :: rest)
      = .ret (none, some (.sentinel .ErrNotASignedDataContainer)) := by
  simp [NewSignedDataContainerFromBytes, h]

/-- C8 at the single byte 1. -/
theorem container_type_check_witness :
    (1 : Byte) ≠ TaggedDataPayloadTypeSignedDataContainer ∧
    NewSignedDataContainerFromBytes [1]
      = .ret (none, some (.sentinel .ErrNotASignedDataContainer)) :=
  ⟨by decide, container_type_check 1 [] (by decide)⟩

/-- C9. Key extraction without signature: for a container with a nil signature,
whatever its data, `PublicKey` returns a nil key together with the error that the
code gives for a missing signature ("no signature given"). -/
theorem publicKey_without_signature (data : List Byte) :
    SignedDataContainer.PublicKey ⟨data, none⟩
      = (none, some (.errorf "%w: no signature given" (.sentinel .ErrInvalidSignature))) := by
  rfl

/-- C10, as stated, fails: it is not the case that for every container without a
signature `VerifySignature` returns an error that is not `ErrInvalidSignature`. -/
theorem missing_signature_is_invalid_signature :
    ¬ (∀ (P : Primitives) (c : SignedDataContainer), c.Signature = none →
        ∃ err : GoError, c.VerifySignature P = some err ∧
          err.Is .ErrInvalidSignature = false) := by
  intro h
  obtain ⟨err, he, hi⟩ := h toyPrimitives ⟨[], none⟩ rfl
  simp only [SignedDataContainer.VerifySignature, Option.some.injEq] at he
  subst he
  simp [GoError.Is] at hi

/-- C10, amended. For a container with a nil signature `VerifySignature` returns
the error "no signature given" that wraps `ErrInvalidSignature`; it differs from
the error of a failed verification only in its message. -/
theorem verify_without_signature (P : Primitives) (data : List Byte) :
    SignedDataContainer.VerifySignature P ⟨data, none⟩
      = some (.errorf "%w: no signature given" (.sentinel .ErrInvalidSignature)) ∧
    (GoError.errorf "%w: no signature given" (.sentinel .ErrInvalidSignature)).Is
      .ErrInvalidSignature = true ∧
    GoError.errorf "%w: no signature given" (.sentinel .ErrInvalidSignature)
      ≠ GoError.errorf "%w: %s" (.sentinel .ErrInvalidSignature) := by
  refine ⟨rfl, rfl, ?_⟩
  intro h
  injection h with h1 _
  revert h1
  decide

/-! ## Signing and verification -/

theorem copyInto_val_of_length {n : Nat} (dst : ByteArrayN n) (src : List Byte)
    (h : src.length = n) : (copyInto dst src).val = src := by
  rw [copyInto_take _ _ (by omega)]
  exact List.take_of_length_le (by omega)

theorem essence_ok (P : Primitives) (data : List Byte) (sig : Option Signature)
    (h : data.length ≤ 65535) :
    SignedDataContainer.Essence P ⟨data, sig⟩
      = ((P.blake2b_Sum256 (wireHeader data)).val, none) := by
  simp [SignedDataContainer.Essence, serializer_header _ _ _ h, Serializer.Serialize]

theorem inMemorySigner_sign_ed25519 (P : Primitives) (k msg : List Byte) (hk : k.length = 64)
    (hs : (P.ed25519_Sign k msg).length = 64) :
    ∃ sig : Ed25519Signature,
      (NewInMemorySigner P (.ed25519 k)).Sign msg = .ret (some (.ed25519 sig), none) ∧
      sig.PublicKey.val = k.drop 32 ∧ sig.Signature.val = P.ed25519_Sign k msg := by
  have hd : (k.drop 32).length = 32 := by simp [hk]
  refine ⟨⟨copyInto (ByteArrayN.zero 32) (copyInto (ByteArrayN.zero 32) (k.drop 32)).val,
    copyInto (ByteArrayN.zero 64) (P.ed25519_Sign k msg)⟩, ?_, ?_, ?_⟩
  · simp [NewInMemorySigner, InMemorySigner.Sign, ed25519_SignGo, ed25519_Public, sliceFrom,
      hk, Ed25519Signature.zero]
  · rw [copyInto_val_of_length _ _ (by rw [copyInto_val_of_length _ _ hd]; exact hd),
      copyInto_val_of_length _ _ hd]
  · exact copyInto_val_of_length _ _ hs

/-- What `VerifySignature` returns for an Ed25519 signature over data that fits the
length prefix: nothing when the library accepts the signature over the essence of
the current data, else an `ErrInvalidSignature` error. -/
theorem verifySignature_ed25519 (P : Primitives) (data : List Byte) (sig : Ed25519Signature)
    (h : data.length ≤ 65535) :
    SignedDataContainer.VerifySignature P ⟨data, some (.ed25519 sig)⟩
      = if P.ed25519_Verify sig.PublicKey.val (P.blake2b_Sum256 (wireHeader data)).val
            sig.Signature.val
        then none
        else some (.errorf "%w: %s" (.sentinel .ErrInvalidSignature)) := by
  simp [SignedDataContainer.VerifySignature, essence_ok P data _ h]

/-- The toy instance satisfies what is assumed of the Ed25519 library. -/
theorem toyPrimitives_correct : toyPrimitives.Ed25519Correct where
  key_length := by
    intro seed h
    simp [toyPrimitives, h]
  sign_length := by
    intro seed message _
    exact (copyInto _ _).property
  verify_sign := by
    intro seed message h
    simp [toyPrimitives, List.take_left' h, List.drop_left' h]

/-- C2. Sign-then-verify: with a correct Ed25519 library, for every payload of at
most 65535 bytes and every private key made from a 32-byte seed,
`NewSignedDataContainer` with the in-memory signer returns a container holding the
payload, and `VerifySignature` on it returns no error. -/
theorem sign_then_verify (P : Primitives) (hP : P.Ed25519Correct) (seed payload : List Byte)
    (hseed : seed.length = 32) (h : payload.length ≤ 65535) :
    ∃ c : SignedDataContainer,
      NewSignedDataContainer P (NewInMemorySigner P (.ed25519 (P.ed25519_NewKeyFromSeed seed)))
        payload = .ret (some c, none) ∧
      c.Data = payload ∧ c.VerifySignature P = none := by
  obtain ⟨sig, hsign, hpk, hsg⟩ := inMemorySigner_sign_ed25519 P (P.ed25519_NewKeyFromSeed seed)
    (P.blake2b_Sum256 (wireHeader payload)).val (hP.key_length seed hseed)
    (hP.sign_length seed _ hseed)
  refine ⟨⟨payload, some (.ed25519 sig)⟩, ?_, rfl, ?_⟩
  · simp [NewSignedDataContainer, SignedDataContainer.sign, essence_ok P payload none h, hsign]
  · simp [SignedDataContainer.VerifySignature, essence_ok P payload _ h, hpk, hsg,
      hP.verify_sign seed _ hseed]

/-- C2 on the toy primitives, for the payload `abc` and the all-zero seed. -/
theorem sign_then_verify_witness :
    toyPrimitives.Ed25519Correct ∧ (List.replicate 32 (0 : Byte)).length = 32 ∧
    ([97, 98, 99] : List Byte).length ≤ 65535 ∧
    ∃ c : SignedDataContainer,
      NewSignedDataContainer toyPrimitives (NewInMemorySigner toyPrimitives
        (.ed25519 (toyPrimitives.ed25519_NewKeyFromSeed (List.replicate 32 (0 : Byte)))))
        [97, 98, 99] = .ret (some c, none) ∧
      c.Data = [97, 98, 99] ∧ c.VerifySignature toyPrimitives = none :=
  ⟨toyPrimitives_correct, by decide, by decide,
    sign_then_verify toyPrimitives toyPrimitives_correct (List.replicate 32 (0 : Byte))
      [97, 98, 99] (by decide) (by decide)⟩

/-! ## Lemmas on the text codec -/

theorem base64Value_digit (v : Nat) (h : v < 64) : base64Value (base64Digit v) = some v :=
  (by decide : ∀ w : Fin 64, base64Value (base64Digit w.val) = some w.val) ⟨v, h⟩

theorem base64Digit_ne_pad (v : Nat) (h : v < 64) : base64Digit v ≠ '=' :=
  (by decide : ∀ w : Fin 64, base64Digit w.val ≠ '=') ⟨v, h⟩

theorem fromHexChar_digit (v : Nat) (h : v < 16) : fromHexChar (hexDigit v) = some v :=
  (by decide : ∀ w : Fin 16, fromHexChar (hexDigit w.val) = some w.val) ⟨v, h⟩

theorem byteOfNat_val (b : Byte) : byteOfNat b.val = b := by
  apply Fin.ext
  simp [byteOfNat]

theorem base64_round_trip (l : List Byte) : base64_Decode (base64_Encode l) = some l := by
  induction l using base64_Encode.induct with
  | case1 => simp [base64_Encode, base64_Decode]
  | case2 a =>
    have ha := a.isLt
    simp [base64_Encode, base64_Decode, base64Value_digit (a.val / 4) (by omega),
      base64Value_digit (a.val % 4 * 16) (by omega)]
    apply Fin.ext; simp only [byteOfNat]; omega
  | case3 a b =>
    have ha := a.isLt
    have hb := b.isLt
    have e1 : byteOfNat (a.val / 4 * 4 + (a.val % 4 * 16 + b.val / 16) / 16) = a := by
      apply Fin.ext; simp only [byteOfNat]; omega
    simp [base64_Encode, base64_Decode, base64Value_digit (a.val / 4) (by omega),
      base64Value_digit (a.val % 4 * 16 + b.val / 16) (by omega),
      base64Value_digit (b.val % 16 * 4) (by omega),
      base64Digit_ne_pad (b.val % 16 * 4) (by omega), e1]
    apply Fin.ext; simp only [byteOfNat]; omega
  | case4 a b c rest ih =>
    have ha := a.isLt
    have hb := b.isLt
    have hc := c.isLt
    have e1 : byteOfNat (a.val / 4 * 4 + (a.val % 4 * 16 + b.val / 16) / 16) = a := by
      apply Fin.ext; simp only [byteOfNat]; omega
    have e2 : byteOfNat ((a.val % 4 * 16 + b.val / 16) % 16 * 16
        + (b.val % 16 * 4 + c.val / 64) / 4) = b := by
      apply Fin.ext; simp only [byteOfNat]; omega
    have e3 : byteOfNat ((b.val % 16 * 4 + c.val / 64) % 4 * 64 + c.val % 64) = c := by
      apply Fin.ext; simp only [byteOfNat]; omega
    simp [base64_Encode, base64_Decode, base64Value_digit (a.val / 4) (by omega),
      base64Value_digit (a.val % 4 * 16 + b.val / 16) (by omega),
      base64Value_digit (b.val % 16 * 4 + c.val / 64) (by omega),
      base64Value_digit (c.val % 64) (by omega),
      base64Digit_ne_pad (b.val % 16 * 4 + c.val / 64) (by omega),
      base64Digit_ne_pad (c.val % 64) (by omega), ih, e1, e2, e3]

theorem hex_round_trip (l : List Byte) : hex_Decode (hex_Encode l) = .ok l := by
  induction l with
  | nil => rfl
  | cons b bs ih =>
    have hb := b.isLt
    have e1 : byteOfNat (b.val / 16 * 16 + b.val % 16) = b := by
      apply Fin.ext; simp only [byteOfNat]; omega
    simp [hex_Encode, hex_Decode, fromHexChar_digit (b.val / 16) (by omega),
      fromHexChar_digit (b.val % 16) (by omega), ih, e1]

theorem decodeHex_encodeHex (l : List Byte) : DecodeHex (EncodeHex l) = (l, none) := by
  cases l with
  | nil => rfl
  | cons b bs => simp [EncodeHex, DecodeHex, hex_round_trip]

theorem signatureFromJSONRawMsg_marshal (sig : Ed25519Signature) :
    SignatureFromJSONRawMsg (some sig.MarshalJSON.1) = .ret (some (.ed25519 sig), none) := by
  have k1 : keyMatches "type" "type" = true := by decide
  have k2 : keyMatches "publicKey" "type" = false := by decide
  have k3 : keyMatches "signature" "type" = false := by decide
  have k4 : keyMatches "publicKey" "publicKey" = true := by decide
  have k5 : keyMatches "signature" "publicKey" = false := by decide
  have k6 : keyMatches "signature" "signature" = true := by decide
  have e1 : copyInto (ByteArrayN.zero 32) sig.PublicKey.val = sig.PublicKey :=
    Subtype.ext (copyInto_val_of_length _ _ sig.PublicKey.property)
  have e2 : copyInto (ByteArrayN.zero 64) sig.Signature.val = sig.Signature :=
    Subtype.ext (copyInto_val_of_length _ _ sig.Signature.property)
  simp [SignatureFromJSONRawMsg, Ed25519Signature.MarshalJSON, jsonEd25519Signature.Marshal,
    jsonEnvelope_Unmarshal, jsonEd25519Signature.Unmarshal, jsonEd25519Signature.decodeField,
    json_decodeInt, json_decodeString, firstError, jsonSignatureSelector, byteOfInt, byteOfNat,
    SignatureEd25519, jsonEd25519Signature.ToSerializable, decodeHex_encodeHex,
    k1, k2, k3, k4, k5, k6, e1, e2]

/-- C4. Text round trip: for every data and every Ed25519 signature, `MarshalJSON`
succeeds, `UnmarshalJSON` of its output into a fresh container succeeds and gives
back the container, and `PublicKey` returns the same key before and after. -/
theorem text_round_trip (data : List Byte) (sig : Ed25519Signature) :
    ∃ (doc : Json) (c : SignedDataContainer),
      SignedDataContainer.MarshalJSON ⟨data, some (.ed25519 sig)⟩ = .ret (some doc, none) ∧
      SignedDataContainer.fresh.UnmarshalJSON doc = .ret (c, none) ∧
      c = ⟨data, some (.ed25519 sig)⟩ ∧
      c.PublicKey = (some sig.PublicKey, none) ∧
      SignedDataContainer.PublicKey ⟨data, some (.ed25519 sig)⟩ = (some sig.PublicKey, none) := by
  have k1 : keyMatches "type" "type" = true := by decide
  have k2 : keyMatches "data" "type" = false := by decide
  have k3 : keyMatches "signature" "type" = false := by decide
  have k4 : keyMatches "data" "data" = true := by decide
  have k5 : keyMatches "signature" "data" = false := by decide
  have k6 : keyMatches "signature" "signature" = true := by decide
  have hraw : SignatureFromJSONRawMsg (json_decodeRaw (jsonEd25519Signature.Marshal
      { Typ := SignatureEd25519.val, PublicKey := EncodeHex sig.PublicKey.val,
        Signature := EncodeHex sig.Signature.val }))
      = .ret (some (.ed25519 sig), none) := signatureFromJSONRawMsg_marshal sig
  refine ⟨_, ⟨data, some (.ed25519 sig)⟩, rfl, ?_, rfl, rfl, rfl⟩
  simp [SignedDataContainer.UnmarshalJSON, jsonSignedDataContainer.Unmarshal,
    jsonSignedDataContainer.Marshal, jsonSignedDataContainer.decodeField, json_decodeInt,
    json_decodeBytes, firstError, base64_round_trip, jsonSignedDataContainer.ToSerializable,
    TaggedDataPayloadTypeSignedDataContainer, Signature.MarshalJSON, hraw,
    k1, k2, k3, k4, k5, k6]

/-! ## Essence, wire layout, key recovery, verification -/

theorem payload_length_bound_new (P : Primitives) (signer : Signer) (data : List Byte)
    (h : 65535 < data.length) :
    NewSignedDataContainer P signer data
      = .ret (none, some (.errorf "unable to compute essence for signed data container: %w"
          (.errorf "unable to serialize signed data container data for essence: %w"
            lengthOutOfRangeError))) := by
  have he : SignedDataContainer.Essence P ⟨data, none⟩
      = ([], some (.errorf "unable to serialize signed data container data for essence: %w"
          lengthOutOfRangeError)) := by
    simp [SignedDataContainer.Essence, serializer_too_long _ _ _ h, Serializer.Serialize]
  simp [NewSignedDataContainer, SignedDataContainer.sign, he]

/-- C11. Unsupported stored variant, evaluated on a container without data whose
signature is of another type than Ed25519: `PublicKey` fails with
`iotago.ErrUnknownSignatureType`, but `VerifySignature` fails with
`ErrUnknownPrivateKeyType`, the key-type error of signer.go, which is not
`ErrUnknownSignatureType`. -/
theorem unsupported_variant_errors_differ (P : Primitives) :
    SignedDataContainer.VerifySignature P ⟨[], some (.foreign exampleForeignSignature)⟩
      = some (.errorf "%w: type %T" (.sentinel .ErrUnknownPrivateKeyType)) ∧
    SignedDataContainer.PublicKey ⟨[], some (.foreign exampleForeignSignature)⟩
      = (none, some (.errorf "%w: type %T" (.sentinel .ErrUnknownSignatureType))) ∧
    (GoError.errorf "%w: type %T" (.sentinel .ErrUnknownPrivateKeyType)).Is
      .ErrUnknownSignatureType = false ∧
    (GoError.errorf "%w: type %T" (.sentinel .ErrUnknownPrivateKeyType)).Is
      .ErrUnknownPrivateKeyType = true := by
  refine ⟨?_, rfl, rfl, rfl⟩
  simp [SignedDataContainer.VerifySignature, essence_ok P [] _ (by decide)]

/-- C12. Essence: for data of at most 65535 bytes `Essence` returns, without error,
the 32-byte BLAKE2b-256 digest of the type tag 0, the 2-byte length of the data and
the data; it is the same for every signature field, absent or present. -/
theorem essence_definition (P : Primitives) (data : List Byte) (sig sig1 : Option Signature)
    (h : data.length ≤ 65535) :
    SignedDataContainer.Essence P ⟨data, sig⟩
      = ((P.blake2b_Sum256 (TaggedDataPayloadTypeSignedDataContainer ::
          (putUint16LE data.length ++ data))).val, none) ∧
    (SignedDataContainer.Essence P ⟨data, sig⟩).1.length = 32 ∧
    (putUint16LE data.length).length = 2 ∧ uintLE (putUint16LE data.length) = data.length ∧
    SignedDataContainer.Essence P ⟨data, sig1⟩ = SignedDataContainer.Essence P ⟨data, sig⟩ := by
  have he : ∀ sg : Option Signature, SignedDataContainer.Essence P ⟨data, sg⟩
      = ((P.blake2b_Sum256 (TaggedDataPayloadTypeSignedDataContainer ::
          (putUint16LE data.length ++ data))).val, none) := fun sg => essence_ok P data sg h
  refine ⟨he sig, ?_, rfl, uintLE_putUint16LE _ h, ?_⟩
  · rw [he sig]
    exact (P.blake2b_Sum256 _).property
  · rw [he sig, he sig1]

/-- C12 on the toy primitives, for the payload `abc`, without and with a signature. -/
theorem essence_definition_witness :
    ([97, 98, 99] : List Byte).length ≤ 65535 ∧
    (SignedDataContainer.Essence toyPrimitives ⟨[97, 98, 99], none⟩).1.length = 32 ∧
    SignedDataContainer.Essence toyPrimitives
        ⟨[97, 98, 99], some (.ed25519 Ed25519Signature.zero)⟩
      = SignedDataContainer.Essence toyPrimitives ⟨[97, 98, 99], none⟩ :=
  ⟨by decide,
   (essence_definition toyPrimitives [97, 98, 99] none
      (some (.ed25519 Ed25519Signature.zero)) (by decide)).2.1,
   (essence_definition toyPrimitives [97, 98, 99] none
      (some (.ed25519 Ed25519Signature.zero)) (by decide)).2.2.2.2⟩

/-- C13. Wire layout: for data of at most 65535 bytes and an Ed25519 signature,
`Serialize` returns (in every mode) the type tag 0, the length of the data in two
little-endian bytes, the data, the signature type tag 0, the 32-byte public key and
the 64-byte signature, nothing else; the output holds `len(Data) + 100` bytes. -/
theorem wire_layout_exact (data : List Byte) (sig : Ed25519Signature)
    (mode : DeSerializationMode) (h : data.length ≤ 65535) :
    ∃ out : List Byte,
      SignedDataContainer.Serialize ⟨data, some (.ed25519 sig)⟩ mode = .ret (out, none) ∧
      out = [TaggedDataPayloadTypeSignedDataContainer] ++ putUint16LE data.length ++ data
          ++ [SignatureEd25519] ++ sig.PublicKey.val ++ sig.Signature.val ∧
      (putUint16LE data.length).length = 2 ∧ uintLE (putUint16LE data.length) = data.length ∧
      sig.PublicKey.val.length = 32 ∧ sig.Signature.val.length = 64 ∧
      out.length = data.length + 100 := by
  refine ⟨wireLayout data sig, serialize_ed25519 data sig mode h, ?_, rfl,
    uintLE_putUint16LE _ h, sig.PublicKey.property, sig.Signature.property,
    wireLayout_length data sig⟩
  simp [wireLayout, wireHeader, wireSignature]

/-- C13 for the payload `abc` with the all-zero signature: 103 bytes. -/
theorem wire_layout_exact_witness :
    ([97, 98, 99] : List Byte).length ≤ 65535 ∧
    ∃ out : List Byte,
      SignedDataContainer.Serialize ⟨[97, 98, 99], some (.ed25519 Ed25519Signature.zero)⟩
        DeSeriModePerformValidation = .ret (out, none) ∧
      out.length = 103 := by
  refine ⟨by decide, ?_⟩
  obtain ⟨out, h1, _, _, _, _, _, h7⟩ := wire_layout_exact [97, 98, 99] Ed25519Signature.zero
    DeSeriModePerformValidation (by decide)
  exact ⟨out, h1, h7⟩

/-- C14, as stated, fails: with a payload of 65536 bytes and an in-memory signer
that holds a key of another type (its `Sign` always returns the error `e` wrapping
`ErrUnknownPrivateKeyType`), `NewSignedDataContainer` returns the length error,
which does not wrap `e`. -/
theorem signer_error_not_wrapped_for_long_payload :
    ¬ (∀ (P : Primitives) (signer : Signer) (payload : List Byte) (e : GoError),
        (∀ msg : List Byte, ∃ sg : Option Signature, signer.Sign msg = .ret (sg, some e)) →
        ∃ err : GoError, NewSignedDataContainer P signer payload = .ret (none, some err) ∧
          err.Wraps e = true) := by
  intro hall
  obtain ⟨err, h1, h2⟩ := hall toyPrimitives
    (NewInMemorySigner toyPrimitives (.other "*rsa.PrivateKey"))
    (List.replicate 65536 (0 : Byte))
    (.errorf "%w: type %T" (.sentinel .ErrUnknownPrivateKeyType))
    (fun _ => ⟨none, rfl⟩)
  rw [(payload_length_bound_new toyPrimitives _ _
    (by rw [List.length_replicate]; decide))] at h1
  have he : err = .errorf "unable to compute essence for signed data container: %w"
      (.errorf "unable to serialize signed data container data for essence: %w"
        lengthOutOfRangeError) := by
    simpa using h1.symm
  subst he
  revert h2
  decide

/-- C14, amended. For a payload of at most 65535 bytes and a signer whose `Sign`
returns the error `e`, `NewSignedDataContainer` returns no container and an error
that wraps `e`; with an in-memory signer holding a key that is not an Ed25519 key
that error wraps `ErrUnknownPrivateKeyType`. -/
theorem no_half_signed_container (P : Primitives) (signer : Signer) (payload : List Byte)
    (e : GoError) (typeName : String) (h : payload.length ≤ 65535)
    (hs : ∀ msg : List Byte, ∃ sg : Option Signature, signer.Sign msg = .ret (sg, some e)) :
    (NewSignedDataContainer P signer payload
      = .ret (none, some (.errorf "unable to produce signed data container signature: %w" e)) ∧
     (GoError.errorf "unable to produce signed data container signature: %w" e).Wraps e = true) ∧
    (∃ err : GoError,
      (NewInMemorySigner P (.other typeName)).Sign payload = .ret (none, some err) ∧
      err.Is .ErrUnknownPrivateKeyType = true) ∧
    (∃ err : GoError,
      NewSignedDataContainer P (NewInMemorySigner P (.other typeName)) payload
        = .ret (none, some err) ∧
      err.Is .ErrUnknownPrivateKeyType = true) := by
  refine ⟨⟨?_, ?_⟩,
    ⟨.errorf "%w: type %T" (.sentinel .ErrUnknownPrivateKeyType), rfl, rfl⟩,
    ⟨.errorf "unable to produce signed data container signature: %w"
      (.errorf "%w: type %T" (.sentinel .ErrUnknownPrivateKeyType)), ?_, rfl⟩⟩
  · obtain ⟨sg, hsg⟩ := hs (P.blake2b_Sum256 (wireHeader payload)).val
    simp [NewSignedDataContainer, SignedDataContainer.sign, essence_ok P payload none h, hsg]
  · cases e <;> simp [GoError.Wraps]
  · simp only [NewSignedDataContainer, SignedDataContainer.sign, essence_ok P payload none h,
      NewInMemorySigner, InMemorySigner.Sign]
    rfl

/-- C14 (amended) on the toy primitives: the payload `abc` and a signer holding a
key of another type. -/
theorem no_half_signed_container_witness :
    ([97, 98, 99] : List Byte).length ≤ 65535 ∧
    ∃ err : GoError,
      NewSignedDataContainer toyPrimitives (NewInMemorySigner toyPrimitives
        (.other "*rsa.PrivateKey")) [97, 98, 99] = .ret (none, some err) ∧
      err.Is .ErrUnknownPrivateKeyType = true :=
  ⟨by decide, (no_half_signed_container toyPrimitives
    (NewInMemorySigner toyPrimitives (.other "*rsa.PrivateKey")) [97, 98, 99]
    (.errorf "%w: type %T" (.sentinel .ErrUnknownPrivateKeyType)) "*rsa.PrivateKey"
    (by decide) (fun _ => ⟨none, rfl⟩)).2.2⟩

/-- C15. Key recovery: for every 64-byte Ed25519 private key `k` (the library's
signatures holding 64 bytes) and every payload of at most 65535 bytes,
`NewSignedDataContainer` with the in-memory signer returns the payload with an
Ed25519 signature whose `Signature` is `ed25519.Sign(k, essence)` and whose
`PublicKey` is `k.Public()`, and `PublicKey` on that container returns that key. -/
theorem key_recovery (P : Primitives) (k payload : List Byte) (hk : k.length = 64)
    (hs : ∀ msg : List Byte, (P.ed25519_Sign k msg).length = 64)
    (h : payload.length ≤ 65535) :
    ∃ sig : Ed25519Signature,
      NewSignedDataContainer P (NewInMemorySigner P (.ed25519 k)) payload
        = .ret (some ⟨payload, some (.ed25519 sig)⟩, none) ∧
      sig.Signature.val
        = P.ed25519_Sign k (SignedDataContainer.Essence P ⟨payload, none⟩).1 ∧
      ed25519_Public k = .ret sig.PublicKey.val ∧
      SignedDataContainer.PublicKey ⟨payload, some (.ed25519 sig)⟩
        = (some sig.PublicKey, none) := by
  obtain ⟨sig, hsign, hpk, hsg⟩ := inMemorySigner_sign_ed25519 P k
    (P.blake2b_Sum256 (wireHeader payload)).val hk (hs _)
  refine ⟨sig, ?_, ?_, ?_, rfl⟩
  · simp [NewSignedDataContainer, SignedDataContainer.sign, essence_ok P payload none h, hsign]
  · rw [essence_ok P payload none h]; exact hsg
  · have hd : (k.drop 32).length = 32 := by simp [hk]
    simp [ed25519_Public, sliceFrom, hk, hpk, copyInto_val_of_length _ _ hd]

/-- C15 on the toy primitives: the payload `abc` and the all-zero key. -/
theorem key_recovery_witness :
    (List.replicate 64 (0 : Byte)).length = 64 ∧ ([97, 98, 99] : List Byte).length ≤ 65535 ∧
    ∃ sig : Ed25519Signature,
      NewSignedDataContainer toyPrimitives
          (NewInMemorySigner toyPrimitives (.ed25519 (List.replicate 64 (0 : Byte))))
          [97, 98, 99]
        = .ret (some ⟨[97, 98, 99], some (.ed25519 sig)⟩, none) ∧
      sig.Signature.val = toyPrimitives.ed25519_Sign (List.replicate 64 (0 : Byte))
        (SignedDataContainer.Essence toyPrimitives ⟨[97, 98, 99], none⟩).1 ∧
      ed25519_Public (List.replicate 64 (0 : Byte)) = .ret sig.PublicKey.val ∧
      SignedDataContainer.PublicKey ⟨[97, 98, 99], some (.ed25519 sig)⟩
        = (some sig.PublicKey, none) :=
  ⟨by decide, by decide,
    key_recovery toyPrimitives (List.replicate 64 (0 : Byte)) [97, 98, 99] (by decide)
      (fun _ => (copyInto _ _).property) (by decide)⟩

/-- C16. Encoding an unsigned container, evaluated: for a nil signature
`MarshalJSON` aborts, whatever the data, and `Serialize` without validation aborts
(here without data); only `Serialize` with validation returns the error of the
write allow-list. -/
theorem unsigned_container_encoding_aborts (data : List Byte) :
    SignedDataContainer.MarshalJSON ⟨data, none⟩
      = .abort "invalid memory address or nil pointer dereference" ∧
    SignedDataContainer.Serialize ⟨[], none⟩ DeSeriModeNoValidation
      = .abort "invalid memory address or nil pointer dereference" ∧
    SignedDataContainer.Serialize ⟨[], none⟩ DeSeriModePerformValidation
      = .ret ([], some (.errorf "unable to serialize signed data container signature: %w"
          (.errorf "%w: because nil" (.sentinel .ErrTypeIsNotSupportedSignature)))) := by
  refine ⟨rfl, ?_, ?_⟩
  · simp only [SignedDataContainer.Serialize, serializer_header [] _ _ (by decide)]
    rfl
  · simp only [SignedDataContainer.Serialize, serializer_header [] _ _ (by decide)]
    rfl

/-- C17. Verification criterion: for data of at most 65535 bytes and an Ed25519
signature, `VerifySignature` returns no error exactly when the library accepts the
stored signature under the stored public key over the essence of the current data,
and otherwise returns an `ErrInvalidSignature` error; it is a function of the data,
the key and the signature alone and changes nothing. -/
theorem verification_criterion (P : Primitives) (data : List Byte) (sig : Ed25519Signature)
    (h : data.length ≤ 65535) :
    (SignedDataContainer.VerifySignature P ⟨data, some (.ed25519 sig)⟩ = none ↔
      P.ed25519_Verify sig.PublicKey.val
        (SignedDataContainer.Essence P ⟨data, some (.ed25519 sig)⟩).1 sig.Signature.val = true) ∧
    (P.ed25519_Verify sig.PublicKey.val
        (SignedDataContainer.Essence P ⟨data, some (.ed25519 sig)⟩).1 sig.Signature.val = false →
      ∃ err : GoError,
        SignedDataContainer.VerifySignature P ⟨data, some (.ed25519 sig)⟩ = some err ∧
        err.Is .ErrInvalidSignature = true) := by
  rw [verifySignature_ed25519 P data sig h, essence_ok P data _ h]
  constructor
  · constructor
    · intro hv
      by_contra hn
      simp [hn] at hv
    · intro hv
      simp [hv]
  · intro hv
    exact ⟨.errorf "%w: %s" (.sentinel .ErrInvalidSignature), by simp [hv], rfl⟩

/-- C17 on the toy primitives: the all-zero signature over the payload `abc` does
not verify, and the error is `ErrInvalidSignature`. -/
theorem verification_criterion_witness :
    ([97, 98, 99] : List Byte).length ≤ 65535 ∧
    ∃ err : GoError,
      SignedDataContainer.VerifySignature toyPrimitives
        ⟨[97, 98, 99], some (.ed25519 Ed25519Signature.zero)⟩ = some err ∧
      err.Is .ErrInvalidSignature = true :=
  ⟨by decide, (verification_criterion toyPrimitives [97, 98, 99] Ed25519Signature.zero
    (by decide)).2 (by decide)⟩

/-- C18. Decoder totality, evaluated on the empty input: the quick type check reads
`data[0]` and `NewSignedDataContainerFromBytes` aborts, while `Deserialize` on the
same input returns the not-enough-data error. -/
theorem fromBytes_empty_aborts :
    NewSignedDataContainerFromBytes [] = .abort "index out of range [0] with length 0" ∧
    SignedDataContainer.fresh.Deserialize [] DeSeriModePerformValidation
      = .ret (SignedDataContainer.fresh, 0,
          some (.errorf "unable to deserialize signed data container type: %w"
            (.errorf "%w: can't check type byte"
              (.sentinel .ErrDeserializationNotEnoughData)))) := by
  refine ⟨rfl, ?_⟩
  simp [SignedDataContainer.Deserialize, Deserializer.CheckTypePrefix, NewDeserializer,
    sliceFrom, CheckTypeByte, Deserializer.ReadVariableByteSlice, Deserializer.ReadObject,
    Deserializer.ConsumedAll, Deserializer.Done, SignedDataContainer.fresh]

/-! ## Canonical encoding -/

theorem putUint16LE_uintLE (l0 l1 : Byte) :
    putUint16LE (uintLE [l0, l1]) = [l0, l1] := by
  have h0 := l0.isLt
  have h1 := l1.isLt
  simp only [putUint16LE, uintLE, byteOfNat]
  congr 1
  · apply Fin.ext; simp only []; omega
  · congr 1
    apply Fin.ext; simp only []; omega

theorem uintLE_two_le (l0 l1 : Byte) : uintLE [l0, l1] ≤ 65535 := by
  have h0 := l0.isLt
  have h1 := l1.isLt
  simp only [uintLE]; omega

/-- Bytes that start with the container tag and a length prefix that the rest
covers are a wire header followed by the rest. -/
theorem wireHeader_decompose (l0 l1 : Byte) (r2 : List Byte) (hn : uintLE [l0, l1] ≤ r2.length) :
    TaggedDataPayloadTypeSignedDataContainer :: l0 :: l1 :: r2
      = wireHeader (r2.take (uintLE [l0, l1])) ++ r2.drop (uintLE [l0, l1]) := by
  have hl : (r2.take (uintLE [l0, l1])).length = uintLE [l0, l1] := by
    simp [List.length_take, hn]
  simp only [wireHeader, hl, putUint16LE_uintLE]
  simp

/-- An input that `Deserialize` accepts starts with a wire header. -/
theorem deserialize_accept_header (b : List Byte) (mode : DeSerializationMode)
    (c : SignedDataContainer) (n : Nat)
    (hacc : SignedDataContainer.fresh.Deserialize b mode = .ret (c, n, none)) :
    ∃ data tail : List Byte, data.length ≤ 65535 ∧ b = wireHeader data ++ tail := by
  match b, hacc with
  | [], hacc =>
    simp [SignedDataContainer.Deserialize, Deserializer.CheckTypePrefix, NewDeserializer,
      sliceFrom, CheckTypeByte, Deserializer.ReadVariableByteSlice, Deserializer.ReadObject,
      Deserializer.ConsumedAll, Deserializer.Done] at hacc
  | [t], hacc =>
    exfalso
    by_cases ht : t = 0 <;>
    simp [SignedDataContainer.Deserialize, Deserializer.CheckTypePrefix, NewDeserializer,
      sliceFrom, CheckTypeByte, Deserializer.ReadVariableByteSlice, Deserializer.ReadObject,
      Deserializer.ConsumedAll, Deserializer.Done, Deserializer.Skip,
      Deserializer.readSliceLength, byteOfNat,
      TaggedDataPayloadTypeSignedDataContainer, ht] at hacc
  | [t, l0], hacc =>
    exfalso
    by_cases ht : t = 0 <;>
    simp [SignedDataContainer.Deserialize, Deserializer.CheckTypePrefix, NewDeserializer,
      sliceFrom, CheckTypeByte, Deserializer.ReadVariableByteSlice, Deserializer.ReadObject,
      Deserializer.ConsumedAll, Deserializer.Done, Deserializer.Skip,
      Deserializer.readSliceLength, byteOfNat,
      TaggedDataPayloadTypeSignedDataContainer, ht] at hacc
  | t :: l0 :: l1 :: r2, hacc =>
    by_cases ht : t = 0
    · subst ht
      by_cases hn : uintLE [l0, l1] ≤ r2.length
      · exact ⟨r2.take (uintLE [l0, l1]), r2.drop (uintLE [l0, l1]),
          by simp only [List.length_take]; have := uintLE_two_le l0 l1; omega,
          wireHeader_decompose l0 l1 r2 hn⟩
      · exfalso
        have hn1 : r2.length < uintLE [l0, l1] := by omega
        have hn2 : ¬ (r2.length + 1 + 1 < 2) := by omega
        simp [SignedDataContainer.Deserialize, Deserializer.CheckTypePrefix, NewDeserializer,
          sliceFrom, CheckTypeByte, Deserializer.ReadVariableByteSlice, Deserializer.ReadObject,
          Deserializer.ConsumedAll, Deserializer.Done, Deserializer.Skip,
          Deserializer.readSliceLength, byteOfNat,
          TaggedDataPayloadTypeSignedDataContainer, hn1, hn2] at hacc
    · exfalso
      simp [SignedDataContainer.Deserialize, Deserializer.CheckTypePrefix, NewDeserializer,
        sliceFrom, CheckTypeByte, Deserializer.ReadVariableByteSlice, Deserializer.ReadObject,
        Deserializer.ConsumedAll, Deserializer.Done, Deserializer.Skip,
        Deserializer.readSliceLength, byteOfNat,
        TaggedDataPayloadTypeSignedDataContainer, ht] at hacc

/-- What `Ed25519Signature.Deserialize` can do on bytes that start with the Ed25519
tag: fail without reading, abort, or read 97 bytes. -/
theorem ed25519_deserialize_cases (e : Ed25519Signature) (rest : List Byte)
    (mode : DeSerializationMode) :
    (∃ err : GoError, e.Deserialize (SignatureEd25519 :: rest) mode = .ret (e, 0, some err)) ∨
    (∃ msg : String, e.Deserialize (SignatureEd25519 :: rest) mode = .abort msg) ∨
    (∃ sig : Ed25519Signature, e.Deserialize (SignatureEd25519 :: rest) mode
      = .ret (sig, 97, none)) := by
  by_cases h32 : 32 ≤ rest.length
  · cases hm : HasMode mode DeSeriModePerformValidation
    · right; right
      simp [Ed25519Signature.Deserialize, hm, sliceFrom, sliceTo, h32,
        Ed25519SignatureSerializedBytesSize]
    · by_cases h96 : rest.length + 1 < 97
      · left
        simp [Ed25519Signature.Deserialize, hm, CheckMinByteLength,
          Ed25519SignatureSerializedBytesSize, h96]
      · right; right
        simp [Ed25519Signature.Deserialize, hm, CheckMinByteLength, CheckTypeByte,
          sliceFrom, sliceTo, h32, Ed25519SignatureSerializedBytesSize, h96]
  · cases hm : HasMode mode DeSeriModePerformValidation
    · right; left
      simp [Ed25519Signature.Deserialize, hm, sliceFrom, sliceTo, h32]
    · left
      have h96 : rest.length + 1 < 97 := by omega
      simp [Ed25519Signature.Deserialize, hm, CheckMinByteLength,
        Ed25519SignatureSerializedBytesSize, h96]

/-- After a wire header, `Deserialize` accepts only a complete Ed25519 signature. -/
theorem deserialize_accept_tail (data tail : List Byte) (mode : DeSerializationMode)
    (c : SignedDataContainer) (n : Nat) (h : data.length ≤ 65535)
    (hacc : SignedDataContainer.fresh.Deserialize (wireHeader data ++ tail) mode
      = .ret (c, n, none)) :
    ∃ sig : Ed25519Signature, tail = wireSignature sig := by
  simp only [SignedDataContainer.Deserialize, checkTypePrefix_header,
    readVariableByteSlice_header _ _ _ _ h, Go.ret_bind] at hacc
  match tail, hacc with
  | [], hacc =>
    exfalso
    have hs : sliceFrom (wireHeader data) (3 + data.length) = .ret [] := by
      simpa using sliceFrom_header data []
    simp [Deserializer.ReadObject, hs, Deserializer.ConsumedAll, Deserializer.Done] at hacc
  | tag :: rest, hacc =>
    by_cases htag : tag = SignatureEd25519
    · subst htag
      by_cases hlen : rest.length = 96
      · have hp : (rest.take 32).length = 32 := by simp [List.length_take, hlen]
        have hs : (rest.drop 32).length = 64 := by simp [List.length_drop, hlen]
        refine ⟨⟨⟨rest.take 32, hp⟩, ⟨rest.drop 32, hs⟩⟩, ?_⟩
        simp [wireSignature]
      · exfalso
        have hsel : SignatureReadGuard signedDataContainerSupportedSigTypes
            (SignatureEd25519 : Byte).val = .ok Ed25519Signature.zero := by
          simp [SignatureReadGuard, SignatureSelector, signedDataContainerSupportedSigTypes,
            SignatureEd25519, byteOfNat]
        have hsrc : (wireHeader data ++ SignatureEd25519 :: rest).length
            = 3 + data.length + 1 + rest.length := by
          simp [wireHeader_length]; omega
        simp only [Deserializer.ReadObject, sliceFrom_header, Go.ret_bind, hsel] at hacc
        rcases ed25519_deserialize_cases Ed25519Signature.zero rest mode with
          ⟨err, he⟩ | ⟨msg, he⟩ | ⟨sig, he⟩
        · simp [he, Deserializer.ConsumedAll, Deserializer.Done] at hacc
        · simp [he] at hacc
        · simp only [he, Go.ret_bind, Deserializer.ConsumedAll, hsrc, sliceFrom] at hacc
          by_cases hle : 3 + data.length + 97 ≤ 3 + data.length + 1 + rest.length
          · have hne : 3 + data.length + 1 + rest.length ≠ 3 + data.length + 97 := by omega
            simp [hne, hle, Deserializer.Done] at hacc
          · have hne : 3 + data.length + 1 + rest.length ≠ 3 + data.length + 97 := by omega
            simp [hne, hle] at hacc
    · exfalso
      simp [readObject_unsupported _ _ _ _ _ _ htag, Deserializer.ConsumedAll,
        Deserializer.Done] at hacc

/-- An input that `Deserialize` accepts into a fresh container is the wire layout
of the container it gives. -/
theorem deserialize_accept_inv (b : List Byte) (mode : DeSerializationMode)
    (c : SignedDataContainer) (n : Nat)
    (hacc : SignedDataContainer.fresh.Deserialize b mode = .ret (c, n, none)) :
    ∃ (data : List Byte) (sig : Ed25519Signature), data.length ≤ 65535 ∧
      b = wireLayout data sig ∧ c = ⟨data, some (.ed25519 sig)⟩ ∧ n = data.length + 100 := by
  obtain ⟨data, tail, hlen, rfl⟩ := deserialize_accept_header b mode c n hacc
  obtain ⟨sig, rfl⟩ := deserialize_accept_tail data tail mode c n hlen hacc
  have hd := deserialize_wire_append SignedDataContainer.fresh data [] sig mode hlen
  simp only [List.append_nil, if_true] at hd
  have hw : wireHeader data ++ wireSignature sig = wireLayout data sig := rfl
  rw [hw, hd] at hacc
  simp only [Go.ret.injEq, Prod.mk.injEq] at hacc
  exact ⟨data, sig, hlen, hw, hacc.1.symm, hacc.2.1.symm⟩

/-- C19. Canonical encoding: when `Deserialize` (in any mode) accepts bytes `b` into
a fresh container and gives `c`, then `Serialize` of `c` (in any mode) returns
exactly `b`, `b` holds `len(c.Data) + 100` bytes and all of them were read; so any
other accepted input that gives the same container is `b` itself. -/
theorem canonical_encoding (b : List Byte) (mode mode1 : DeSerializationMode)
    (c : SignedDataContainer) (n : Nat)
    (hacc : SignedDataContainer.fresh.Deserialize b mode = .ret (c, n, none)) :
    c.Serialize mode1 = .ret (b, none) ∧ b.length = c.Data.length + 100 ∧ n = b.length ∧
    (∀ (b1 : List Byte) (mode2 : DeSerializationMode) (n1 : Nat),
      SignedDataContainer.fresh.Deserialize b1 mode2 = .ret (c, n1, none) → b1 = b) := by
  obtain ⟨data, sig, hlen, rfl, rfl, rfl⟩ := deserialize_accept_inv b mode c n hacc
  refine ⟨serialize_ed25519 data sig mode1 hlen, wireLayout_length data sig,
    (wireLayout_length data sig).symm, ?_⟩
  intro b1 mode2 n1 h1
  obtain ⟨data1, sig1, _, rfl, hc, _⟩ := deserialize_accept_inv b1 mode2 _ n1 h1
  simp only [SignedDataContainer.mk.injEq, Option.some.injEq, Signature.ed25519.injEq] at hc
  rw [hc.1, hc.2]

/-- C19 at the wire layout of the empty payload with the all-zero signature. -/
theorem canonical_encoding_witness :
    SignedDataContainer.fresh.Deserialize (wireLayout [] Ed25519Signature.zero)
        DeSeriModePerformValidation
      = .ret (⟨[], some (.ed25519 Ed25519Signature.zero)⟩, 100, none) ∧
    SignedDataContainer.Serialize ⟨[], some (.ed25519 Ed25519Signature.zero)⟩
        DeSeriModeNoValidation
      = .ret (wireLayout [] Ed25519Signature.zero, none) ∧
    (wireLayout [] Ed25519Signature.zero).length = 100 :=
  have hacc : SignedDataContainer.fresh.Deserialize (wireLayout [] Ed25519Signature.zero)
      DeSeriModePerformValidation
      = .ret (⟨[], some (.ed25519 Ed25519Signature.zero)⟩, 100, none) := by
    have hd := deserialize_wire_append SignedDataContainer.fresh [] [] Ed25519Signature.zero
      DeSeriModePerformValidation (by decide)
    simpa using hd
  ⟨hacc, (canonical_encoding _ DeSeriModePerformValidation DeSeriModeNoValidation _ _ hacc).1,
    (canonical_encoding _ DeSeriModePerformValidation DeSeriModeNoValidation _ _ hacc).2.1⟩

/-! ## Totality of the validating decoder on non-empty input -/

/-- With validation `Ed25519Signature.Deserialize` fails without reading or reads
97 bytes that are there. -/
theorem ed25519_deserialize_validation (e : Ed25519Signature) (rest : List Byte) :
    (∃ err : GoError, e.Deserialize (SignatureEd25519 :: rest) DeSeriModePerformValidation
      = .ret (e, 0, some err)) ∨
    (96 ≤ rest.length ∧ ∃ sig : Ed25519Signature,
      e.Deserialize (SignatureEd25519 :: rest) DeSeriModePerformValidation
        = .ret (sig, 97, none)) := by
  have hm : HasMode DeSeriModePerformValidation DeSeriModePerformValidation = true := by decide
  by_cases h96 : rest.length + 1 < 97
  · left
    simp [Ed25519Signature.Deserialize, hm, CheckMinByteLength,
      Ed25519SignatureSerializedBytesSize, h96]
  · right
    have h32 : 32 ≤ rest.length := by omega
    refine ⟨by omega, ?_⟩
    simp [Ed25519Signature.Deserialize, hm, CheckMinByteLength, CheckTypeByte,
      sliceFrom, sliceTo, h32, Ed25519SignatureSerializedBytesSize, h96]

/-- With validation `Deserialize` never aborts. -/
theorem deserialize_validation_returns (b : List Byte) :
    ∃ r : SignedDataContainer × Nat × Option GoError,
      SignedDataContainer.fresh.Deserialize b DeSeriModePerformValidation = .ret r := by
  match b with
  | [] =>
    simp [SignedDataContainer.Deserialize, Deserializer.CheckTypePrefix, NewDeserializer,
      sliceFrom, CheckTypeByte, Deserializer.ReadVariableByteSlice, Deserializer.ReadObject,
      Deserializer.ConsumedAll, Deserializer.Done]
  | [t] =>
    by_cases ht : t = 0 <;>
    simp [SignedDataContainer.Deserialize, Deserializer.CheckTypePrefix, NewDeserializer,
      sliceFrom, CheckTypeByte, Deserializer.ReadVariableByteSlice, Deserializer.ReadObject,
      Deserializer.ConsumedAll, Deserializer.Done, Deserializer.Skip,
      Deserializer.readSliceLength, byteOfNat,
      TaggedDataPayloadTypeSignedDataContainer, ht]
  | [t, l0] =>
    by_cases ht : t = 0 <;>
    simp [SignedDataContainer.Deserialize, Deserializer.CheckTypePrefix, NewDeserializer,
      sliceFrom, CheckTypeByte, Deserializer.ReadVariableByteSlice, Deserializer.ReadObject,
      Deserializer.ConsumedAll, Deserializer.Done, Deserializer.Skip,
      Deserializer.readSliceLength, byteOfNat,
      TaggedDataPayloadTypeSignedDataContainer, ht]
  | t :: l0 :: l1 :: r2 =>
    by_cases ht : t = 0
    · subst ht
      by_cases hn : uintLE [l0, l1] ≤ r2.length
      · have hdec := wireHeader_decompose l0 l1 r2 hn
        have hlen : (r2.take (uintLE [l0, l1])).length ≤ 65535 := by
          simp only [List.length_take]; have := uintLE_two_le l0 l1; omega
        have h0 : (0 : Byte) = TaggedDataPayloadTypeSignedDataContainer := rfl
        rw [h0, hdec]
        generalize r2.take (uintLE [l0, l1]) = data at hlen
        generalize r2.drop (uintLE [l0, l1]) = tail
        simp only [SignedDataContainer.Deserialize, checkTypePrefix_header,
          readVariableByteSlice_header _ _ _ _ hlen, Go.ret_bind]
        match tail with
        | [] =>
          have hs : sliceFrom (wireHeader data) (3 + data.length) = .ret [] := by
            simpa using sliceFrom_header data []
          simp [Deserializer.ReadObject, hs, Deserializer.ConsumedAll, Deserializer.Done]
        | tag :: rest =>
          by_cases htag : tag = SignatureEd25519
          · subst htag
            have hsel : SignatureReadGuard signedDataContainerSupportedSigTypes
                (SignatureEd25519 : Byte).val = .ok Ed25519Signature.zero := by
              simp [SignatureReadGuard, SignatureSelector, signedDataContainerSupportedSigTypes,
                SignatureEd25519, byteOfNat]
            have hsrc : (wireHeader data ++ SignatureEd25519 :: rest).length
                = 3 + data.length + 1 + rest.length := by
              simp [wireHeader_length]; omega
            simp only [Deserializer.ReadObject, sliceFrom_header, Go.ret_bind, hsel]
            rcases ed25519_deserialize_validation Ed25519Signature.zero rest with
              ⟨err, he⟩ | ⟨h96, sig, he⟩
            · simp [he, Deserializer.ConsumedAll, Deserializer.Done]
            · have hle : 3 + data.length + 97 ≤ 3 + data.length + 1 + rest.length := by omega
              simp only [he, Go.ret_bind, Deserializer.ConsumedAll, hsrc, sliceFrom]
              by_cases heq : 3 + data.length + 1 + rest.length = 3 + data.length + 97
              · simp [heq, Deserializer.Done]
              · simp [heq, hle, Deserializer.Done]
          · simp [readObject_unsupported _ _ _ _ _ _ htag, Deserializer.ConsumedAll,
              Deserializer.Done]
      · have hn1 : r2.length < uintLE [l0, l1] := by omega
        have hn2 : ¬ (r2.length + 1 + 1 < 2) := by omega
        simp [SignedDataContainer.Deserialize, Deserializer.CheckTypePrefix, NewDeserializer,
          sliceFrom, CheckTypeByte, Deserializer.ReadVariableByteSlice, Deserializer.ReadObject,
          Deserializer.ConsumedAll, Deserializer.Done, Deserializer.Skip,
          Deserializer.readSliceLength, byteOfNat,
          TaggedDataPayloadTypeSignedDataContainer, hn1, hn2]
    · simp [SignedDataContainer.Deserialize, Deserializer.CheckTypePrefix, NewDeserializer,
        sliceFrom, CheckTypeByte, Deserializer.ReadVariableByteSlice, Deserializer.ReadObject,
        Deserializer.ConsumedAll, Deserializer.Done, Deserializer.Skip,
        Deserializer.readSliceLength, byteOfNat,
        TaggedDataPayloadTypeSignedDataContainer, ht]

/-- On every non-empty input `NewSignedDataContainerFromBytes` returns. -/
theorem fromBytes_nonempty_returns (t : Byte) (rest : List Byte) :
    ∃ r : Option SignedDataContainer × Option GoError,
      NewSignedDataContainerFromBytes (t :: rest) = .ret r := by
  by_cases ht : t = TaggedDataPayloadTypeSignedDataContainer
  · obtain ⟨⟨c, n, err⟩, hr⟩ := deserialize_validation_returns (t :: rest)
    exact ⟨_, fromBytes_of_deserialize (t :: rest) c n err (by simp [ht]) hr⟩
  · exact ⟨(none, some (.sentinel .ErrNotASignedDataContainer)),
      by simp [NewSignedDataContainerFromBytes, ht]⟩

/-! ## The text decoder and the `type` field -/

theorem json_decodeInt_error (v : Json) (old1 old2 : Int) :
    (json_decodeInt v old1).2 = (json_decodeInt v old2).2 := by
  cases v <;> simp [json_decodeInt]
  split <;> rfl

theorem decodeField_agree (st1 st2 : jsonSignedDataContainer × Option GoError)
    (kv : String × Json) (h : AgreeButType st1 st2) :
    AgreeButType (jsonSignedDataContainer.decodeField st1 kv)
      (jsonSignedDataContainer.decodeField st2 kv) := by
  obtain ⟨⟨t1, d1, s1⟩, e1⟩ := st1
  obtain ⟨⟨t2, d2, s2⟩, e2⟩ := st2
  obtain ⟨hd, hs, he⟩ := h
  simp only at hd hs he
  subst hd hs he
  simp only [jsonSignedDataContainer.decodeField, AgreeButType]
  by_cases k1 : keyMatches kv.1 "type" = true
  · simp [k1, json_decodeInt_error kv.2 t1 t2]
  · by_cases k2 : keyMatches kv.1 "data" = true
    · simp [k1, k2]
    · by_cases k3 : keyMatches kv.1 "signature" = true <;> simp [k1, k2, k3]

theorem foldl_decodeField_agree (fields : List (String × Json))
    (st1 st2 : jsonSignedDataContainer × Option GoError) (h : AgreeButType st1 st2) :
    AgreeButType (fields.foldl jsonSignedDataContainer.decodeField st1)
      (fields.foldl jsonSignedDataContainer.decodeField st2) := by
  induction fields generalizing st1 st2 with
  | nil => exact h
  | cons kv rest ih => exact ih _ _ (decodeField_agree st1 st2 kv h)

theorem decodeField_type_agree (st : jsonSignedDataContainer × Option GoError) (key : String)
    (n : Int) (hk : keyMatches key "type" = true)
    (hn : -9223372036854775808 ≤ n ∧ n ≤ 9223372036854775807) :
    AgreeButType (jsonSignedDataContainer.decodeField st (key, .num n)) st := by
  obtain ⟨⟨t1, d1, s1⟩, e1⟩ := st
  simp only [jsonSignedDataContainer.decodeField, AgreeButType, hk, json_decodeInt, hn]
  cases e1 <;> simp [firstError]

theorem agreeButType_symm (st1 st2 : jsonSignedDataContainer × Option GoError)
    (h : AgreeButType st1 st2) : AgreeButType st2 st1 :=
  ⟨h.1.symm, h.2.1.symm, h.2.2.symm⟩

/-- The outcome of `UnmarshalJSON` on an object is the same for two field lists
whose decoding states agree on everything but the `type` field. -/
theorem unmarshalJSON_of_agree (s : SignedDataContainer) (fields1 fields2 : List (String × Json))
    (h : AgreeButType
      (fields1.foldl jsonSignedDataContainer.decodeField
        ({ Typ := 0, Data := [], Signature := none }, none))
      (fields2.foldl jsonSignedDataContainer.decodeField
        ({ Typ := 0, Data := [], Signature := none }, none))) :
    s.UnmarshalJSON (.obj fields1) = s.UnmarshalJSON (.obj fields2) := by
  simp only [SignedDataContainer.UnmarshalJSON, jsonSignedDataContainer.Unmarshal]
  generalize fields1.foldl jsonSignedDataContainer.decodeField
    ({ Typ := 0, Data := [], Signature := none }, none) = st1 at h
  generalize fields2.foldl jsonSignedDataContainer.decodeField
    ({ Typ := 0, Data := [], Signature := none }, none) = st2 at h
  obtain ⟨⟨t1, d1, s1⟩, e1⟩ := st1
  obtain ⟨⟨t2, d2, s2⟩, e2⟩ := st2
  obtain ⟨hd, hs, he⟩ := h
  simp only at hd hs he
  subst hd hs he
  cases e1 <;> simp [jsonSignedDataContainer.ToSerializable]

/-- C20, as stated, fails: in the text form of the empty payload with the all-zero
signature the `type` values 0 and 9223372036854775808 are both integers, yet the
first document decodes to the container and the second is refused, because the
second value does not fit the Go `int` field. -/
theorem type_value_out_of_range_refused :
    SignedDataContainer.fresh.UnmarshalJSON (.obj [("type", .num 0), ("data", .str ""),
        ("signature", Ed25519Signature.zero.MarshalJSON.1)])
      = .ret (⟨[], some (.ed25519 Ed25519Signature.zero)⟩, none) ∧
    SignedDataContainer.fresh.UnmarshalJSON (.obj [("type", .num 9223372036854775808),
        ("data", .str ""), ("signature", Ed25519Signature.zero.MarshalJSON.1)])
      = .ret (SignedDataContainer.fresh, some jsonTypeError) := by
  have k1 : keyMatches "type" "type" = true := by decide
  have k2 : keyMatches "data" "type" = false := by decide
  have k3 : keyMatches "signature" "type" = false := by decide
  have k4 : keyMatches "data" "data" = true := by decide
  have k5 : keyMatches "signature" "data" = false := by decide
  have k6 : keyMatches "signature" "signature" = true := by decide
  have hraw : SignatureFromJSONRawMsg (json_decodeRaw Ed25519Signature.zero.MarshalJSON.1)
      = .ret (some (.ed25519 Ed25519Signature.zero), none) :=
    signatureFromJSONRawMsg_marshal Ed25519Signature.zero
  have hb : base64_Decode "".data = some [] := rfl
  constructor
  · simp only [SignedDataContainer.UnmarshalJSON, jsonSignedDataContainer.Unmarshal,
      List.foldl_cons, List.foldl_nil, jsonSignedDataContainer.decodeField, k1, k2, k3, k4, k5,
      k6, json_decodeInt, json_decodeBytes, hb, firstError,
      jsonSignedDataContainer.ToSerializable]
    simp [hraw]
  · simp only [SignedDataContainer.UnmarshalJSON, jsonSignedDataContainer.Unmarshal,
      List.foldl_cons, List.foldl_nil, jsonSignedDataContainer.decodeField, k1, k2, k3, k4, k5,
      k6, json_decodeInt, json_decodeBytes, hb, firstError]
    simp

/-- C20, amended. Two documents that differ only in the value of the top-level
`type` field, both values fitting a 64-bit `int`, or of which one lacks the field,
give the same outcome of `UnmarshalJSON` (the same error, the same container or the
same abort): the text decoder never compares `type` with the container type tag. -/
theorem text_decoding_ignores_type (s : SignedDataContainer) (pre post : List (String × Json))
    (key : String) (n m : Int) (hk : keyMatches key "type" = true)
    (hn : -9223372036854775808 ≤ n ∧ n ≤ 9223372036854775807)
    (hm : -9223372036854775808 ≤ m ∧ m ≤ 9223372036854775807) :
    s.UnmarshalJSON (.obj (pre ++ (key, .num n) :: post))
      = s.UnmarshalJSON (.obj (pre ++ (key, .num m) :: post)) ∧
    s.UnmarshalJSON (.obj (pre ++ (key, .num n) :: post))
      = s.UnmarshalJSON (.obj (pre ++ post)) := by
  have hstep : ∀ (k : Int), -9223372036854775808 ≤ k ∧ k ≤ 9223372036854775807 →
      AgreeButType
        ((pre ++ (key, Json.num k) :: post).foldl jsonSignedDataContainer.decodeField
          ({ Typ := 0, Data := [], Signature := none }, none))
        ((pre ++ post).foldl jsonSignedDataContainer.decodeField
          ({ Typ := 0, Data := [], Signature := none }, none)) := by
    intro k hkr
    simp only [List.foldl_append, List.foldl_cons]
    exact foldl_decodeField_agree post _ _ (decodeField_type_agree _ key k hk hkr)
  refine ⟨unmarshalJSON_of_agree s _ _ ?_, unmarshalJSON_of_agree s _ _ (hstep n hn)⟩
  have h1 := hstep n hn
  have h2 := agreeButType_symm _ _ (hstep m hm)
  exact ⟨h1.1.trans h2.1, h1.2.1.trans h2.2.1, h1.2.2.trans h2.2.2⟩

/-- C20 (amended) at the text form of the empty payload with the all-zero
signature: the `type` values 0 and 7 decode to the same container. -/
theorem text_decoding_ignores_type_witness :
    keyMatches "type" "type" = true ∧
    SignedDataContainer.fresh.UnmarshalJSON (.obj ([] ++ ("type", .num 0) ::
        [("data", .str ""), ("signature", Ed25519Signature.zero.MarshalJSON.1)]))
      = SignedDataContainer.fresh.UnmarshalJSON (.obj ([] ++ ("type", .num 7) ::
        [("data", .str ""), ("signature", Ed25519Signature.zero.MarshalJSON.1)])) :=
  ⟨by decide, (text_decoding_ignores_type SignedDataContainer.fresh []
    [("data", .str ""), ("signature", Ed25519Signature.zero.MarshalJSON.1)] "type" 0 7
    (by decide) (by decide) (by decide)).1⟩

end Datapayloads
